import Mathlib

/-!
Project showcase admin: request executor and collection query / edit engine.

A shallow embedding of the data-synchronisation core of the application:

* `src/hooks/useApi.js` : the request executor (`handleRequest` and the six
  operations built on it) with its shared `loading` / `error` state;
* `src/components/Products.jsx` : the filter pipeline (`applyFilters`), the
  inline edit session (`handleEdit`, the field handlers, Cancel, `handleSave`),
  deletion (`handleDelete`), the snapshot refresh (`fetchProducts`) and the
  derived category list;
* `src/components/AddProduct.jsx` : creation-time validation (`validateForm`)
  and submission (`handleSubmit`);
* `src/components/Dashboard.jsx` : the combined load (`fetchData`) and the
  statistics; `src/App.jsx` : the route table.

Conventions of the embedding.

* JavaScript strings are Lean strings.  `String.prototype.includes` is
  contiguous-substring search; on well-formed strings searching by code unit
  and by code point agree.
* `String.prototype.toLowerCase` is a built-in of the host language, not code
  of the repository.  It is a parameter `toLowerCase : String → String` of the
  functions that call it, so that every theorem holds for the real built-in.
  `asciiToLowerCase` is one concrete instance, used to run the definitions.
  `String.prototype.trim`, `new URL(...)` and `JSON.stringify` are parameters
  in the same way (`FormHost`, `Host`).
* JavaScript numbers that reach the comparisons of this code are finite
  doubles (JSON bodies, `Number(...)` of a number input).  Finite doubles are
  rational numbers and `>=`, `<=` compare them exactly, so numbers are `ℚ`.
* An identifier passed to the hook is any value (`Identifier`); the template
  literal of the address renders it with `templateString`, whose number
  conversion is a parameter of the host, like the other built-ins.
* An awaited call is modelled by its outcome: `Except Thrown α` is a promise
  that has settled, `.ok` for fulfilled and `.error` for rejected.
* Calls that overlap on one hook instance are modelled by a step function on
  start and settle events (`Executor.step`), built from the same
  `handleRequestStart` and `handleRequestSettle` as a single call.
-/

namespace ProjectShowcase

/-! ## Data model -/

/-- Product record of the `products` collection, as the components read it. -/
structure Product where
  id : Nat
  name : String
  description : String
  category : String
  price : ℚ
  stock : ℚ
  image : String
  featured : Bool
deriving DecidableEq

/-- Filter criteria, the `filters` state of `Products.jsx` (lines 10-16). -/
structure Filters where
  query : String
  category : String
  minPrice : ℚ
  maxPrice : ℚ
  featuredOnly : Bool
deriving DecidableEq

/-- Initial value of the `filters` state (`Products.jsx` lines 10-16). -/
def initialFilters : Filters :=
  { query := "", category := "", minPrice := 0, maxPrice := 1000, featuredOnly := false }

/-! ## Host-language primitives -/

/-- JavaScript truthiness of a string: every string but the empty one. -/
def truthy (s : String) : Bool := s != ""

/-- Model of `s.includes(q)`: `q` occurs in `s` as a contiguous substring. -/
def includes (s q : String) : Bool := decide (q.data <:+: s.data)

/-- Lower-casing of the ASCII letters, one instance of the `toLowerCase` parameter. -/
def asciiToLowerCase (s : String) : String := String.mk (s.data.map Char.toLower)

/-! ## Filter pipeline (`Products.jsx` lines 33-60) -/

/-- Callback of the text pass (`Products.jsx` lines 38-41). -/
def matchesQuery (toLowerCase : String → String) (filters : Filters) (product : Product) : Bool :=
  includes (toLowerCase product.name) (toLowerCase filters.query) ||
    includes (toLowerCase product.description) (toLowerCase filters.query)

/-- Callback of the category pass (`Products.jsx` line 46). -/
def matchesCategory (filters : Filters) (product : Product) : Bool :=
  product.category == filters.category

/-- Callback of the price pass (`Products.jsx` lines 50-52). -/
def inPriceRange (filters : Filters) (product : Product) : Bool :=
  decide (product.price ≥ filters.minPrice) && decide (product.price ≤ filters.maxPrice)

/-- Callback of the featured pass (`Products.jsx` line 56). -/
def isFeatured (product : Product) : Bool := product.featured

/-- The value `applyFilters` passes to `setFilteredProducts`: a copy of the
snapshot run through the four passes in source order, the text, category and
featured passes each guarded by its `if`. -/
def applyFilters (toLowerCase : String → String) (products : List Product)
    (filters : Filters) : List Product :=
  let filtered := products
  let filtered :=
    if truthy filters.query then filtered.filter (matchesQuery toLowerCase filters) else filtered
  let filtered :=
    if truthy filters.category then filtered.filter (matchesCategory filters) else filtered
  let filtered := filtered.filter (inPriceRange filters)
  let filtered :=
    if filters.featuredOnly then filtered.filter isFeatured else filtered
  filtered

/-- The four clauses of the filter as one proposition about a record, each
clause optional in the way the specification words it: (query is empty, or the
lower-cased name or description contains the lower-cased query), (category is
empty, or the categories are equal), `minPrice <= price <= maxPrice`, and
(featuredOnly is false, or the record is featured). -/
def SatisfiesClauses (toLowerCase : String → String) (filters : Filters) (p : Product) : Prop :=
  (filters.query = "" ∨ includes (toLowerCase p.name) (toLowerCase filters.query) = true ∨
      includes (toLowerCase p.description) (toLowerCase filters.query) = true) ∧
  (filters.category = "" ∨ p.category = filters.category) ∧
  (filters.minPrice ≤ p.price ∧ p.price ≤ filters.maxPrice) ∧
  (filters.featuredOnly = false ∨ p.featured = true)

instance (toLowerCase : String → String) (filters : Filters) (p : Product) :
    Decidable (SatisfiesClauses toLowerCase filters p) := by
  unfold SatisfiesClauses
  infer_instance

/-! ## Request executor (`useApi.js`) -/

/-- Base address of the remote store (`useApi.js` line 3). -/
def API_BASE_URL : String := "http://localhost:3001"

/-- A thrown value or rejection reason: an instance of `Error` carrying its
message, or any other value. -/
inductive Thrown where
  | error (message : String)
  | other (value : String)
deriving DecidableEq

/-- A primitive field value of a JavaScript object. -/
inductive JsValue where
  | str (s : String)
  | num (q : ℚ)
  | bool (b : Bool)
deriving DecidableEq

/-- A flat JavaScript object: its own properties in insertion order. -/
abbrev JsObject := List (String × JsValue)

/-- The `options` argument of `handleRequest`; an absent property is `none`. -/
structure Options where
  headers : Option (List (String × String)) := none
  method : Option String := none
  body : Option String := none
deriving DecidableEq

/-- The second argument `handleRequest` passes to `fetch`. -/
structure RequestInit where
  headers : List (String × String)
  method : Option String
  body : Option String
deriving DecidableEq

/-- What the code reads of a response: `ok`, `status`, and how `json()` settles. -/
structure Response (Body : Type) where
  ok : Bool
  status : Nat
  json : Except Thrown Body

/-- How the promise returned by `fetch` settles. -/
inductive FetchResult (Body : Type) where
  | rejected (reason : Thrown)
  | resolved (response : Response Body)

/-- The host environment of the hook: the network behind `fetch`, as the
outcome of each request, the built-in `JSON.stringify`, and the built-in
conversion of a number to a string (`Number::toString`). -/
structure Host (Body : Type) where
  fetch : String → RequestInit → FetchResult Body
  stringify : JsObject → String
  numberToString : ℚ → String

/-- A value passed as identifier to an operation of the hook: a string, a
finite number, or any other value, which enters the model as the string the
`ToString` conversion of the language gives for it (`null`, `NaN`, ...). -/
inductive Identifier where
  | str (s : String)
  | num (q : ℚ)
  | other (converted : String)
deriving DecidableEq

/-- The string a template literal puts in place of `${id}`: the `ToString`
conversion of the language, which leaves a string as it is and renders a
number with the built-in conversion. -/
def templateString (numberToString : ℚ → String) : Identifier → String
  | .str s => s
  | .num q => numberToString q
  | .other converted => converted

/-- The two state cells of the hook (`useApi.js` lines 6-7). -/
structure ApiState where
  loading : Bool
  error : Option String
deriving DecidableEq

/-- Initial state of the hook: `useState(false)`, `useState(null)`. -/
def initialApiState : ApiState := { loading := false, error := none }

/-- Assignment of one property of an object: an existing key keeps its place. -/
def assign {α : Type} (obj : List (String × α)) (k : String) (v : α) : List (String × α) :=
  if obj.any (fun kv => kv.1 == k) then obj.map (fun kv => if kv.1 == k then (k, v) else kv)
  else obj ++ [(k, v)]

/-- Object spread `{ ...obj, ...src }`. -/
def spread {α : Type} (obj src : List (String × α)) : List (String × α) :=
  src.foldl (fun acc kv => assign acc kv.1 kv.2) obj

/-- The object literal of `useApi.js` lines 14-20: the merged `headers`, then
the own properties of `options` spread over it. -/
def requestInit (options : Options) : RequestInit :=
  let merged := spread [("Content-Type", "application/json")] (options.headers.getD [])
  { headers := options.headers.getD merged, method := options.method, body := options.body }

/-- Message stored by the catch block (`useApi.js` line 29). -/
def errorMessage (err : Thrown) : String :=
  match err with
  | .error message => message
  | .other _ => "An error occurred"

/-- Synchronous head of `handleRequest` (`useApi.js` lines 10-11): the state
while the fetch is awaited. -/
def handleRequestStart (_s : ApiState) : ApiState :=
  { loading := true, error := none }

/-- The `try` block of `handleRequest` once the fetch has settled (`useApi.js`
lines 14-27): the value it returns or the value it throws. -/
def tryBlock {Body : Type} (outcome : FetchResult Body) : Except Thrown Body :=
  match outcome with
  | .rejected reason => .error reason
  | .resolved response =>
    if !response.ok then
      .error (Thrown.error ("HTTP error! status: " ++ toString response.status))
    else
      response.json

/-- Remainder of `handleRequest` from the moment the fetch settles (`useApi.js`
lines 22-34), run on the state `s` of that moment: `catch` stores the message
and re-throws, `finally` releases `loading` on both paths. -/
def handleRequestSettle {Body : Type} (s : ApiState) (outcome : FetchResult Body) :
    ApiState × Except Thrown Body :=
  match tryBlock outcome with
  | .ok data => ({ s with loading := false }, .ok data)
  | .error err => ({ loading := false, error := some (errorMessage err) }, .error err)

/-- Record of one call of `handleRequest`: the state while the fetch is in
flight, the state after the call has settled, and what the caller receives. -/
structure Completed (Body : Type) where
  pending : ApiState
  settled : ApiState
  result : Except Thrown Body

/-- One call of `handleRequest(url, options)` from state `s` with no other call
overlapping it (`useApi.js` lines 9-35). -/
def handleRequest {Body : Type} (host : Host Body) (s : ApiState) (url : String)
    (options : Options := {}) : Completed Body :=
  let pending := handleRequestStart s
  let out := handleRequestSettle pending (host.fetch (API_BASE_URL ++ url) (requestInit options))
  { pending := pending, settled := out.1, result := out.2 }

/-- Model of `getProducts` (`useApi.js` lines 38-40). -/
def getProducts {Body : Type} (host : Host Body) (s : ApiState) : Completed Body :=
  handleRequest host s "/products"

/-- Model of `getProduct` (`useApi.js` lines 42-44); `id` is whatever value the
caller passes, interpolated by the template literal. -/
def getProduct {Body : Type} (host : Host Body) (s : ApiState) (id : Identifier) :
    Completed Body :=
  handleRequest host s ("/products/" ++ templateString host.numberToString id)

/-- Model of `getStoreInfo` (`useApi.js` lines 46-48). -/
def getStoreInfo {Body : Type} (host : Host Body) (s : ApiState) : Completed Body :=
  handleRequest host s "/store_info"

/-- Model of `createProduct` (`useApi.js` lines 51-56). -/
def createProduct {Body : Type} (host : Host Body) (s : ApiState) (productData : JsObject) :
    Completed Body :=
  handleRequest host s "/products"
    { method := some "POST", body := some (host.stringify productData) }

/-- Model of `updateProduct` (`useApi.js` lines 59-64). -/
def updateProduct {Body : Type} (host : Host Body) (s : ApiState) (id : Identifier)
    (updates : JsObject) : Completed Body :=
  handleRequest host s ("/products/" ++ templateString host.numberToString id)
    { method := some "PATCH", body := some (host.stringify updates) }

/-- Model of `deleteProduct` (`useApi.js` lines 67-71). -/
def deleteProduct {Body : Type} (host : Host Body) (s : ApiState) (id : Identifier) :
    Completed Body :=
  handleRequest host s ("/products/" ++ templateString host.numberToString id)
    { method := some "DELETE" }

/-- A call of one of the six operations the hook returns (`useApi.js` lines 73-82). -/
inductive Operation where
  | getProducts
  | getProduct (id : Identifier)
  | getStoreInfo
  | createProduct (productData : JsObject)
  | updateProduct (id : Identifier) (updates : JsObject)
  | deleteProduct (id : Identifier)
deriving DecidableEq

/-- Running an operation of the hook from state `s`. -/
def Operation.run {Body : Type} (host : Host Body) (s : ApiState) : Operation → Completed Body
  | .getProducts => ProjectShowcase.getProducts host s
  | .getProduct id => ProjectShowcase.getProduct host s id
  | .getStoreInfo => ProjectShowcase.getStoreInfo host s
  | .createProduct productData => ProjectShowcase.createProduct host s productData
  | .updateProduct id updates => ProjectShowcase.updateProduct host s id updates
  | .deleteProduct id => ProjectShowcase.deleteProduct host s id

/-- The `url` argument an operation passes to `handleRequest`. -/
def Operation.url {Body : Type} (host : Host Body) : Operation → String
  | .getProducts => "/products"
  | .getProduct id => "/products/" ++ templateString host.numberToString id
  | .getStoreInfo => "/store_info"
  | .createProduct _ => "/products"
  | .updateProduct id _ => "/products/" ++ templateString host.numberToString id
  | .deleteProduct id => "/products/" ++ templateString host.numberToString id

/-- The `options` argument an operation passes to `handleRequest`. -/
def Operation.options {Body : Type} (host : Host Body) : Operation → Options
  | .getProducts => {}
  | .getProduct _ => {}
  | .getStoreInfo => {}
  | .createProduct productData =>
    { method := some "POST", body := some (host.stringify productData) }
  | .updateProduct _ updates => { method := some "PATCH", body := some (host.stringify updates) }
  | .deleteProduct _ => { method := some "DELETE" }

/-- How the fetch issued by an operation settles. -/
def Operation.fetched {Body : Type} (host : Host Body) (op : Operation) : FetchResult Body :=
  host.fetch (API_BASE_URL ++ op.url host) (requestInit (op.options host))

/-- An instance of the number conversion, used to run the definitions: an
integer in decimal, as the built-in renders integers of magnitude below 10^21. -/
def decimalNumberToString (q : ℚ) : String :=
  if q.den = 1 then toString q.num else toString q.num ++ "/" ++ toString q.den

/-- A host whose network answers every request in the same way. -/
def constHost {Body : Type} (outcome : FetchResult Body) : Host Body :=
  { fetch := fun _ _ => outcome, stringify := fun _ => "",
    numberToString := decimalNumberToString }

/-! ## Edit session and snapshot (`Products.jsx`) -/

/-- State cells of the `Products` component that the engine owns (`Products.jsx`
lines 8-18): the snapshot, the filter criteria, the edit session (`none` is
Idle, `some c` is Editing with working copy `c`) and the identifiers whose
image failed to load. -/
structure ProductsState where
  products : List Product
  filters : Filters
  editingProduct : Option Product
  imageErrors : List Nat
deriving DecidableEq

/-- A call the component makes on the request executor. -/
inductive ApiCall where
  | getProducts
  | updateProduct (id : Nat) (updates : JsObject)
  | deleteProduct (id : Nat)
deriving DecidableEq

/-- The object literal `handleSave` passes to `updateProduct` (`Products.jsx`
lines 76-84). -/
def savePayload (product : Product) : JsObject :=
  [ ("name", .str product.name),
    ("description", .str product.description),
    ("category", .str product.category),
    ("price", .num product.price),
    ("stock", .num product.stock),
    ("image", .str product.image),
    ("featured", .bool product.featured) ]

/-- Model of `fetchProducts` (`Products.jsx` lines 20-27): one `getProducts`
call; when it fulfils, its data replaces the snapshot, when it rejects the
error is logged and the state is left as it is. `listOutcome` is how the call
settles. Returns the new state and the calls issued, in order. -/
def fetchProducts (st : ProductsState) (listOutcome : Except Thrown (List Product)) :
    ProductsState × List ApiCall :=
  match listOutcome with
  | .ok data => ({ st with products := data }, [ApiCall.getProducts])
  | .error _ => (st, [ApiCall.getProducts])

/-- Model of `handleEdit` (`Products.jsx` lines 70-72). -/
def handleEdit (st : ProductsState) (product : Product) : ProductsState :=
  { st with editingProduct := some product }

/-- Model of `handleSave` (`Products.jsx` lines 74-90): the `updateProduct`
call is awaited; when it fulfils the session is reset and `fetchProducts` is
called, when it rejects the error is logged and nothing else is done. `st` is
the component state when the awaited call settles, `updateOutcome` and
`listOutcome` are how the two calls settle. Returns the new state and the
calls issued, in order. -/
def handleSave {β : Type} (st : ProductsState) (product : Product)
    (updateOutcome : Except Thrown β) (listOutcome : Except Thrown (List Product)) :
    ProductsState × List ApiCall :=
  let call := ApiCall.updateProduct product.id (savePayload product)
  match updateOutcome with
  | .ok _ =>
    let st1 := { st with editingProduct := none }
    let refreshed := fetchProducts st1 listOutcome
    (refreshed.1, call :: refreshed.2)
  | .error _ => (st, [call])

/-- The seven editable fields of a working copy. -/
inductive FieldName where
  | name
  | description
  | category
  | price
  | stock
  | image
  | featured
deriving DecidableEq

/-- One `onChange` of the inline editor together with the value it writes
(`Products.jsx` lines 243, 248, 253, 265, 272, 280, 286); the two numeric
inputs write `Number(e.target.value)`, the checkbox writes `e.target.checked`. -/
inductive FieldEdit where
  | name (value : String)
  | description (value : String)
  | category (value : String)
  | price (value : ℚ)
  | stock (value : ℚ)
  | image (value : String)
  | featured (checked : Bool)
deriving DecidableEq

/-- The field an `onChange` handler writes. -/
def FieldEdit.field : FieldEdit → FieldName
  | .name _ => .name
  | .description _ => .description
  | .category _ => .category
  | .price _ => .price
  | .stock _ => .stock
  | .image _ => .image
  | .featured _ => .featured

/-- The value an `onChange` handler writes. -/
def FieldEdit.value : FieldEdit → JsValue
  | .name v => .str v
  | .description v => .str v
  | .category v => .str v
  | .price v => .num v
  | .stock v => .num v
  | .image v => .str v
  | .featured b => .bool b

/-- Reading an editable field of a record. -/
def Product.get (p : Product) : FieldName → JsValue
  | .name => .str p.name
  | .description => .str p.description
  | .category => .str p.category
  | .price => .num p.price
  | .stock => .num p.stock
  | .image => .str p.image
  | .featured => .bool p.featured

/-- The updater an `onChange` handler passes to `setEditingProduct`:
`prev => prev ? { ...prev, field: value } : null`. -/
def FieldEdit.updater (e : FieldEdit) (prev : Option Product) : Option Product :=
  match prev with
  | some prev =>
    match e with
    | .name v => some { prev with name := v }
    | .description v => some { prev with description := v }
    | .category v => some { prev with category := v }
    | .price v => some { prev with price := v }
    | .stock v => some { prev with stock := v }
    | .image v => some { prev with image := v }
    | .featured b => some { prev with featured := b }
  | none => none

/-- Model of an `onChange` of the inline editor: `setEditingProduct(updater)`. -/
def changeField (st : ProductsState) (e : FieldEdit) : ProductsState :=
  { st with editingProduct := e.updater st.editingProduct }

/-- Model of the Cancel button (`Products.jsx` line 300): `setEditingProduct(null)`. -/
def cancelEdit (st : ProductsState) : ProductsState :=
  { st with editingProduct := none }

/-- Model of `handleDelete` (`Products.jsx` lines 92-101): nothing happens
unless `window.confirm` returns true (`confirmed`); then `deleteProduct(id)` is
awaited, and `fetchProducts` is called when it fulfils, while a rejection is
only logged. `st` is the component state when the awaited call settles.
Returns the new state and the calls issued, in order. -/
def handleDelete {β : Type} (st : ProductsState) (id : Nat) (confirmed : Bool)
    (deleteOutcome : Except Thrown β) (listOutcome : Except Thrown (List Product)) :
    ProductsState × List ApiCall :=
  if confirmed then
    match deleteOutcome with
    | .ok _ =>
      let refreshed := fetchProducts st listOutcome
      (refreshed.1, ApiCall.deleteProduct id :: refreshed.2)
    | .error _ => (st, [ApiCall.deleteProduct id])
  else
    (st, [])

/-- A user action on the product grid, with the outcomes of the calls it awaits. -/
inductive UiEvent (β : Type) where
  | edit (product : Product)
  | change (e : FieldEdit)
  | cancel
  | save (product : Product) (updateOutcome : Except Thrown β)
      (listOutcome : Except Thrown (List Product))
  | delete (id : Nat) (confirmed : Bool) (deleteOutcome : Except Thrown β)
      (listOutcome : Except Thrown (List Product))

/-- The handler bound to each user action (`Products.jsx` lines 363, 243-286,
300, 294, 369): the new state and the calls issued on the request executor. The
Edit, field and Cancel handlers only call `setEditingProduct`. -/
def dispatch {β : Type} (st : ProductsState) : UiEvent β → ProductsState × List ApiCall
  | .edit product => (handleEdit st product, [])
  | .change e => (changeField st e, [])
  | .cancel => (cancelEdit st, [])
  | .save product updateOutcome listOutcome => handleSave st product updateOutcome listOutcome
  | .delete id confirmed deleteOutcome listOutcome =>
    handleDelete st id confirmed deleteOutcome listOutcome

/-! ## Derived category list (`Products.jsx` line 107, `AddProduct.jsx` line 26) -/

/-- Model of `Set.prototype.add` on the insertion-ordered elements of a set. -/
def setAdd (s : List String) (v : String) : List String :=
  if v ∈ s then s else s ++ [v]

/-- Model of `new Set(values)`: the elements in order of first insertion. -/
def newSet (values : List String) : List String :=
  values.foldl setAdd []

/-- Model of `Array.from(new Set(products.map(p => p.category)))`. -/
def categories (products : List Product) : List String :=
  newSet (products.map (fun p => p.category))

/-! ## Overlapping calls on one executor instance -/

/-- An event of the hook: a call of `handleRequest` starts (runs up to its
`await fetch`), or the fetch of a call in flight settles and the call runs to
its end. Calls are named by a number. -/
inductive ExecEvent where
  | start (call : Nat)
  | settle (call : Nat)
deriving DecidableEq

/-- The hook with bookkeeping of its calls: the two state cells, the calls
started and not yet settled, the calls that have settled (latest first), and
whether some call has started while another one was in flight. -/
structure Executor where
  api : ApiState
  inFlight : List Nat
  settled : List Nat
  overlapped : Bool
deriving DecidableEq

/-- The hook before any call. -/
def Executor.initial : Executor :=
  { api := initialApiState, inFlight := [], settled := [], overlapped := false }

/-- One step of the hook. `outcomes c` is how the fetch of call `c` settles. A
call starts once and settles once, after it has started; any other event is
refused. The state cells change as `handleRequestStart` and
`handleRequestSettle` say. -/
def Executor.step {Body : Type} (outcomes : Nat → FetchResult Body) (x : Executor) :
    ExecEvent → Option Executor
  | .start c =>
    if c ∈ x.inFlight ∨ c ∈ x.settled then none
    else some
      { api := handleRequestStart x.api
        inFlight := c :: x.inFlight
        settled := x.settled
        overlapped := x.overlapped || !x.inFlight.isEmpty }
  | .settle c =>
    if c ∈ x.inFlight then some
      { api := (handleRequestSettle x.api (outcomes c)).1
        inFlight := x.inFlight.erase c
        settled := c :: x.settled
        overlapped := x.overlapped }
    else none

/-- Running a sequence of events; `none` when one of them is refused. -/
def Executor.run {Body : Type} (outcomes : Nat → FetchResult Body) (x : Executor) :
    List ExecEvent → Option Executor
  | [] => some x
  | e :: es =>
    match x.step outcomes e with
    | some y => y.run outcomes es
    | none => none

/-- Whether the fetch of a call settles in a failure of the `try` block. -/
def failureOf {Body : Type} (outcome : FetchResult Body) : Option Thrown :=
  match tryBlock outcome with
  | .ok _ => none
  | .error err => some err

/-- Invariant of the hook with bookkeeping: `loading` is true only while a
call is in flight, and as long as no two calls have overlapped at most one
call is in flight and `loading` is true whenever one is. -/
def Executor.Inv (x : Executor) : Prop :=
  (x.api.loading = true → x.inFlight ≠ []) ∧
  (x.overlapped = false → x.inFlight.length ≤ 1 ∧ (x.inFlight ≠ [] → x.api.loading = true))

/-- Outcomes for two calls: call 0 is refused by the network, every other call
is answered 200 with the body 0. -/
def sampleOutcomes (call : Nat) : FetchResult Nat :=
  if call = 0 then .rejected (.error "Network error")
  else .resolved { ok := true, status := 200, json := .ok 0 }

/-- Outcomes for two calls: call 1 is refused by the network, every other call
is answered 200 with the body 0. -/
def secondFailsOutcomes (call : Nat) : FetchResult Nat :=
  if call = 1 then .rejected (.error "Network error")
  else .resolved { ok := true, status := 200, json := .ok 0 }

/-- Outcomes under which every call is answered 200 with the body 0. -/
def successOutcomes (_call : Nat) : FetchResult Nat :=
  .resolved { ok := true, status := 200, json := .ok 0 }

/-- The state of the hook after two calls have started and call 0 has settled
with success: call 1 is still in flight. -/
def sampleAfterFirstSettle : Executor :=
  { api := { loading := false, error := none }, inFlight := [1], settled := [0],
    overlapped := true }

/-- The state of the hook after call 0 has run to its end and call 1 has started. -/
def sampleSecondInFlight : Executor :=
  { api := { loading := true, error := none }, inFlight := [1], settled := [0],
    overlapped := false }

/-- The state of the hook after call 0 has started, from the initial state. -/
def sampleFirstStarted : Executor :=
  { api := { loading := true, error := none }, inFlight := [0], settled := [],
    overlapped := false }

/-- The state of the hook after call 0 has started and call 1 has started and
settled with success: call 0 is still in flight. -/
def sampleSecondSettled : Executor :=
  { api := { loading := false, error := none }, inFlight := [0], settled := [1],
    overlapped := true }

/-- The state of the hook after two overlapping calls have both settled with
success, call 0 last. -/
def sampleBothSucceeded : Executor :=
  { api := { loading := false, error := none }, inFlight := [], settled := [0, 1],
    overlapped := true }

/-- The state of the hook after two overlapping calls under
`secondFailsOutcomes`, call 1 failing first and call 0 succeeding last: the
message of call 1 is still stored. -/
def sampleSuccessSettledLast : Executor :=
  { api := { loading := false, error := some "Network error" }, inFlight := [],
    settled := [0, 1], overlapped := true }

/-- The state of the hook after two overlapping calls under `sampleOutcomes`,
call 0 settling first: the message of call 0 is still stored. -/
def sampleBothSettled : Executor :=
  { api := { loading := false, error := some "Network error" }, inFlight := [],
    settled := [1, 0], overlapped := true }

/-! ## Requests on the wire (`useApi.js` lines 14-20) -/

/-- The calls of `fetch` made by one call of `handleRequest(url, options)`, in
order: the single call of line 14, which every path through the function
reaches, with the address and the object literal it is given. -/
def handleRequestFetches (url : String) (options : Options) : List (String × RequestInit) :=
  [(API_BASE_URL ++ url, requestInit options)]

/-- The calls of `fetch` made by an operation of the hook. -/
def Operation.fetches {Body : Type} (host : Host Body) (op : Operation) :
    List (String × RequestInit) :=
  handleRequestFetches (op.url host) (op.options host)

/-! ## Product creation form (`AddProduct.jsx`) -/

/-- The `formData` state of the form (`AddProduct.jsx` lines 10-18). -/
structure FormData where
  name : String
  description : String
  category : String
  price : ℚ
  stock : ℚ
  image : String
  featured : Bool
deriving DecidableEq

/-- Initial value of `formData`, also the value the form is reset to
(`AddProduct.jsx` lines 10-18 and 105-113). -/
def emptyFormData : FormData :=
  { name := "", description := "", category := "", price := 0, stock := 0, image := "",
    featured := false }

/-- Built-ins of the host language used by the form: `String.prototype.trim`
and whether `new URL(string)` returns rather than throws. -/
structure FormHost where
  trim : String → String
  parsesAsUrl : String → Bool

/-- State cells of the `AddProduct` component (`AddProduct.jsx` lines 9-21). -/
structure AddProductState where
  categories : List String
  formData : FormData
  validationErrors : List (String × String)
  successMessage : String
  imageError : Bool
deriving DecidableEq

/-- Initial state of the `AddProduct` component. -/
def initialAddProductState : AddProductState :=
  { categories := [], formData := emptyFormData, validationErrors := [], successMessage := "",
    imageError := false }

/-- Model of `isValidUrl` (`AddProduct.jsx` lines 70-77). -/
def isValidUrl (host : FormHost) (string : String) : Bool :=
  host.parsesAsUrl string

/-- Model of `validateForm` (`AddProduct.jsx` lines 37-68): the `errors` object
it passes to `setValidationErrors`, built by the six statements in source
order, and the boolean it returns. -/
def validateForm (host : FormHost) (formData : FormData) : List (String × String) × Bool :=
  let errors : List (String × String) := []
  let errors :=
    if !truthy (host.trim formData.name) then assign errors "name" "Product name is required"
    else errors
  let errors :=
    if !truthy (host.trim formData.description) then
      assign errors "description" "Product description is required"
    else errors
  let errors :=
    if !truthy formData.category then assign errors "category" "Category is required"
    else errors
  let errors :=
    if formData.price ≤ 0 then assign errors "price" "Price must be greater than 0"
    else errors
  let errors :=
    if formData.stock < 0 then assign errors "stock" "Stock cannot be negative"
    else errors
  let errors :=
    if !truthy (host.trim formData.image) then assign errors "image" "Image URL is required"
    else if !isValidUrl host formData.image then
      assign errors "image" "Please enter a valid image URL"
    else errors
  (errors, errors.length == 0)

/-- The `errors` object of `validateForm` as a function of the outcomes of its
seven tests, in source order; `validateForm_eq` relates the two. -/
def validationErrorsOf (nameBlank descriptionBlank categoryEmpty priceNotPositive stockNegative
    imageBlank imageParses : Bool) : List (String × String) :=
  let errors : List (String × String) := []
  let errors := if nameBlank then assign errors "name" "Product name is required" else errors
  let errors :=
    if descriptionBlank then assign errors "description" "Product description is required"
    else errors
  let errors := if categoryEmpty then assign errors "category" "Category is required" else errors
  let errors :=
    if priceNotPositive then assign errors "price" "Price must be greater than 0" else errors
  let errors := if stockNegative then assign errors "stock" "Stock cannot be negative" else errors
  let errors :=
    if imageBlank then assign errors "image" "Image URL is required"
    else if !imageParses then assign errors "image" "Please enter a valid image URL"
    else errors
  errors

/-- A call the form makes on the request executor. -/
inductive AddProductCall where
  | getProducts
  | createProduct (productData : FormData)
deriving DecidableEq

/-- What one submission of the form does: the new state, the calls issued in
order, and the path of the navigation it schedules with `setTimeout`, if any. -/
structure Submitted where
  state : AddProductState
  calls : List AddProductCall
  redirect : Option String
deriving DecidableEq

/-- Model of `handleSubmit` (`AddProduct.jsx` lines 93-122): `validateForm`
stores the errors; when it returns false nothing else is done; otherwise
`createProduct(formData)` is awaited, and when it fulfils the success message
is set, the form is reset and a navigation to `/products` is scheduled, while
a rejection is only logged. `createOutcome` is how the call settles. -/
def handleSubmit {β : Type} (host : FormHost) (st : AddProductState)
    (createOutcome : Except Thrown β) : Submitted :=
  let validation := validateForm host st.formData
  let st1 := { st with validationErrors := validation.1 }
  if !validation.2 then
    { state := st1, calls := [], redirect := none }
  else
    match createOutcome with
    | .ok _ =>
      { state := { st1 with successMessage := "Product created successfully!",
                            formData := emptyFormData }
        calls := [AddProductCall.createProduct st.formData]
        redirect := some "/products" }
    | .error _ =>
      { state := st1, calls := [AddProductCall.createProduct st.formData], redirect := none }

/-! ## Routes and initial load (`App.jsx` lines 17-21, `Products.jsx` lines 8-31) -/

/-- The three views of the application. -/
inductive Page where
  | dashboard
  | products
  | addProduct
deriving DecidableEq

/-- A path without its trailing slashes. -/
def stripTrailingSlashes (s : String) : String :=
  String.mk ((s.data.reverse.dropWhile (fun ch => ch == '/')).reverse)

/-- Whether the router matches the (decoded) `pathname` against the `path` of a
route. No route of `App.jsx` sets `caseSensitive`, so the router compares
ignoring the case of letters, and it ignores trailing slashes; the paths of the
table hold ASCII letters only. -/
def matchesPath (path pathname : String) : Bool :=
  pathname.data.head? == some '/' &&
    asciiToLowerCase (stripTrailingSlashes pathname) ==
      asciiToLowerCase (stripTrailingSlashes path)

/-- The route table of `App.jsx` (lines 18-20): the view mounted for a
pathname, if any. -/
def route (pathname : String) : Option Page :=
  if matchesPath "/" pathname then some Page.dashboard
  else if matchesPath "/products" pathname then some Page.products
  else if matchesPath "/add-product" pathname then some Page.addProduct
  else none

/-- Initial state of the `Products` component (`Products.jsx` lines 8-18). -/
def initialProductsState : ProductsState :=
  { products := [], filters := initialFilters, editingProduct := none, imageErrors := [] }

/-- Mounting the `Products` component: the effect of `Products.jsx` lines 29-31
calls `fetchProducts` once on the initial state. -/
def mountProducts (listOutcome : Except Thrown (List Product)) : ProductsState × List ApiCall :=
  fetchProducts initialProductsState listOutcome

/-- What follows a submission once its scheduled navigation has fired: the view
the route table gives for the path is mounted; for the product list this is
its initial load. `none` when no navigation was scheduled or the path leads to
another view. -/
def afterRedirect (submitted : Submitted) (listOutcome : Except Thrown (List Product)) :
    Option (ProductsState × List ApiCall) :=
  match submitted.redirect with
  | some path =>
    match route path with
    | some Page.products => some (mountProducts listOutcome)
    | _ => none
  | none => none

/-! ## Dashboard (`Dashboard.jsx`) -/

/-- Record of the `store_info` collection, as the dashboard reads it. -/
structure StoreInfo where
  name : String
  description : String
  phone_number : String
  email : String
  address : String
deriving DecidableEq

/-- State cells of the `Dashboard` component (`Dashboard.jsx` lines 8-9). -/
structure DashboardState where
  products : List Product
  storeInfo : Option StoreInfo
deriving DecidableEq

/-- Initial state of the `Dashboard` component: `useState([])`, `useState(null)`. -/
def initialDashboardState : DashboardState :=
  { products := [], storeInfo := none }

/-- Model of `fetchData` (`Dashboard.jsx` lines 12-23): the two calls are
awaited together with `Promise.all`; when both fulfil the products are stored
and `storeData[0] || null` is stored (a record is truthy, a missing first
element is `undefined`); when either rejects the error is logged and the state
is left as it is. -/
def fetchData (st : DashboardState) (productsOutcome : Except Thrown (List Product))
    (storeOutcome : Except Thrown (List StoreInfo)) : DashboardState :=
  match productsOutcome, storeOutcome with
  | .ok productsData, .ok storeData =>
    { products := productsData, storeInfo := storeData.head? }
  | _, _ => st

/-- Model of `featuredProducts` (`Dashboard.jsx` line 28). -/
def featuredProducts (products : List Product) : List Product :=
  (products.filter (fun product => product.featured)).take 3

/-- Model of `totalProducts` (`Dashboard.jsx` line 29). -/
def totalProducts (products : List Product) : Nat :=
  products.length

/-- Model of `lowStockProducts` (`Dashboard.jsx` line 30). -/
def lowStockProducts (products : List Product) : Nat :=
  (products.filter (fun product => decide (product.stock < 10))).length

/-- The numbers of the three statistics cards (`Dashboard.jsx` lines 75-95):
Total Products, Featured Products, Low Stock Items. -/
def statsCards (products : List Product) : Nat × Nat × Nat :=
  (totalProducts products, (featuredProducts products).length, lowStockProducts products)

/-! ## Sample data -/

/-- First record of the sample snapshot. -/
def sampleFirst : Product :=
  { id := 1, name := "X", description := "first", category := "A", price := 10,
    stock := 5, image := "https://example.com/1.jpg", featured := false }

/-- Second record of the sample snapshot. -/
def sampleSecond : Product :=
  { id := 2, name := "Y", description := "second", category := "B", price := 200,
    stock := 2, image := "https://example.com/2.jpg", featured := true }

/-- Two-record snapshot used to run the definitions. -/
def sampleProducts : List Product := [sampleFirst, sampleSecond]

/-- A working copy of the first sample record with its name and price edited. -/
def sampleWorkingCopy : Product :=
  { id := 1, name := "X2", description := "first", category := "A", price := 12,
    stock := 5, image := "https://example.com/1.jpg", featured := false }

/-- Component state with an edit of the first sample record in progress. -/
def sampleEditing : ProductsState :=
  { products := sampleProducts, filters := initialFilters,
    editingProduct := some sampleWorkingCopy, imageErrors := [] }

/-- Component state holding the sample snapshot, no edit in progress. -/
def sampleIdle : ProductsState :=
  { products := sampleProducts, filters := initialFilters,
    editingProduct := none, imageErrors := [] }

/-- Trimming of ASCII blanks at both ends, one instance of `trim`. -/
def asciiTrim (s : String) : String :=
  String.mk (((s.data.dropWhile Char.isWhitespace).reverse.dropWhile Char.isWhitespace).reverse)

/-- An instance of the built-ins of the form, used to run the definitions: ASCII
trimming, and a string counted as a URL when it contains `://`. -/
def sampleFormHost : FormHost :=
  { trim := asciiTrim, parsesAsUrl := fun s => includes s "://" }

/-- A form that passes every rule of `validateForm` under `sampleFormHost`. -/
def sampleValidForm : FormData :=
  { name := "Stand", description := "Laptop stand", category := "Accessories", price := 30,
    stock := 4, image := "https://example.com/3.jpg", featured := false }

/-- The `AddProduct` component with `sampleValidForm` filled in. -/
def sampleFilledForm : AddProductState :=
  { initialAddProductState with formData := sampleValidForm }

/-- The record the store holds for `sampleValidForm` once it has assigned id 3. -/
def sampleCreated : Product :=
  { id := 3, name := "Stand", description := "Laptop stand", category := "Accessories",
    price := 30, stock := 4, image := "https://example.com/3.jpg", featured := false }

/-- A record of the `store_info` collection. -/
def sampleStoreInfo : StoreInfo :=
  { name := "TechGear Pro", description := "Accessories", phone_number := "555-0100",
    email := "info@example.com", address := "1 Main Street" }

/-- A record priced above the initial maximum of the price filter. -/
def samplePricey : Product :=
  { id := 4, name := "Workstation", description := "Tower", category := "Computers",
    price := 1500, stock := 1, image := "https://example.com/4.jpg", featured := true }

/-- A response with a success status whose body is empty, so that `json()`
rejects with the parser's error. -/
def emptyBodyResponse : Response Unit :=
  { ok := true, status := 204, json := .error (.error "Unexpected end of JSON input") }

/-! ## Lemmas on the filter pipeline -/

theorem truthy_eq_false_iff (s : String) : truthy s = false ↔ s = "" := by
  simp [truthy]

theorem truthy_eq_true_iff (s : String) : truthy s = true ↔ s ≠ "" := by
  simp [truthy]

/-- A guarded filter pass is a filter pass with the guard folded into the predicate. -/
theorem guarded_filter_eq {α : Type} (c : Bool) (p : α → Bool) (l : List α) :
    (if c then l.filter p else l) = l.filter (fun a => !c || p a) := by
  cases c <;> simp

/-- The four guarded passes equal one pass with the conjunction of the clauses. -/
theorem applyFilters_eq_filter (toLowerCase : String → String) (products : List Product)
    (filters : Filters) :
    applyFilters toLowerCase products filters =
      products.filter (fun p => decide (SatisfiesClauses toLowerCase filters p)) := by
  unfold applyFilters
  simp only [guarded_filter_eq]
  simp only [List.filter_filter]
  congr 1
  funext a
  rw [Bool.eq_iff_iff, decide_eq_true_iff]
  simp only [SatisfiesClauses, truthy, matchesQuery, matchesCategory, inPriceRange,
    isFeatured, ge_iff_le, Bool.and_eq_true, Bool.or_eq_true, Bool.not_eq_true',
    bne_eq_false_iff_eq, beq_iff_eq, decide_eq_true_eq]
  tauto

theorem mem_applyFilters_iff (toLowerCase : String → String) (products : List Product)
    (filters : Filters) (p : Product) :
    p ∈ applyFilters toLowerCase products filters ↔
      p ∈ products ∧ SatisfiesClauses toLowerCase filters p := by
  rw [applyFilters_eq_filter]
  simp [List.mem_filter]

/-! ## Lemmas on the request executor -/

theorem Operation.run_eq_handleRequest {Body : Type} (host : Host Body) (s : ApiState)
    (op : Operation) : op.run host s = handleRequest host s (op.url host) (op.options host) := by
  cases op <;> rfl

theorem base_products_append (t : String) :
    API_BASE_URL ++ ("/products/" ++ t) = "http://localhost:3001/products/" ++ t := by
  rw [← String.append_assoc]
  rfl

theorem Operation.run_pending {Body : Type} (host : Host Body) (s : ApiState) (op : Operation) :
    (op.run host s).pending = handleRequestStart s := by
  rw [Operation.run_eq_handleRequest]
  rfl

theorem Operation.run_settled {Body : Type} (host : Host Body) (s : ApiState) (op : Operation) :
    ((op.run host s).settled, (op.run host s).result) =
      handleRequestSettle (handleRequestStart s) (op.fetched host) := by
  rw [Operation.run_eq_handleRequest]
  rfl

/-! ## Lemmas on the derived category list -/

theorem mem_setAdd (s : List String) (v c : String) : c ∈ setAdd s v ↔ c ∈ s ∨ c = v := by
  unfold setAdd
  split
  · constructor
    · exact fun h => Or.inl h
    · rintro (h | h)
      · exact h
      · subst h
        assumption
  · simp

theorem nodup_setAdd (s : List String) (v : String) (h : s.Nodup) : (setAdd s v).Nodup := by
  unfold setAdd
  split
  · exact h
  · rename_i hv
    rw [List.nodup_append]
    refine ⟨h, List.nodup_singleton v, ?_⟩
    intro a ha hb
    rw [List.mem_singleton] at hb
    subst hb
    exact hv ha

theorem foldl_setAdd_spec (values : List String) :
    ∀ acc : List String, acc.Nodup →
      (values.foldl setAdd acc).Nodup ∧
      ∀ c : String, c ∈ values.foldl setAdd acc ↔ c ∈ acc ∨ c ∈ values := by
  induction values with
  | nil =>
    intro acc h
    simp [h]
  | cons v vs ih =>
    intro acc h
    obtain ⟨h1, h2⟩ := ih (setAdd acc v) (nodup_setAdd acc v h)
    refine ⟨h1, fun c => ?_⟩
    rw [List.foldl_cons, h2, mem_setAdd, List.mem_cons]
    tauto

/-! ## Lemmas on overlapping calls -/

theorem handleRequestSettle_api {Body : Type} (s : ApiState) (o : FetchResult Body) :
    (handleRequestSettle s o).1 =
      match failureOf o with
      | none => { s with loading := false }
      | some err => { loading := false, error := some (errorMessage err) } := by
  unfold handleRequestSettle failureOf
  cases tryBlock o <;> rfl

theorem handleRequestSettle_loading {Body : Type} (s : ApiState) (o : FetchResult Body) :
    (handleRequestSettle s o).1.loading = false := by
  rw [handleRequestSettle_api]
  cases failureOf o <;> rfl

theorem erase_of_length_le_one (l : List Nat) (c : Nat) (hl : l.length ≤ 1) (hc : c ∈ l) :
    l.erase c = [] := by
  match l, hl, hc with
  | [a], _, hc =>
    rw [List.mem_singleton] at hc
    subst hc
    simp
  | _ :: _ :: _, hl, _ =>
    simp at hl

theorem Executor.step_preserves_inv {Body : Type} (outcomes : Nat → FetchResult Body)
    (x y : Executor) (e : ExecEvent) (hx : x.Inv) (hstep : x.step outcomes e = some y) :
    y.Inv := by
  obtain ⟨ha, hb⟩ := hx
  cases e with
  | start c =>
    simp only [Executor.step] at hstep
    split at hstep
    · cases hstep
    · cases hstep
      refine ⟨fun _ => List.cons_ne_nil _ _, fun hov => ?_⟩
      simp only [Bool.or_eq_false_iff, Bool.not_eq_false', List.isEmpty_iff] at hov
      simp [hov.2, handleRequestStart]
  | settle c =>
    simp only [Executor.step] at hstep
    split at hstep
    · rename_i hc
      cases hstep
      refine ⟨fun h => ?_, fun hov => ?_⟩
      · rw [handleRequestSettle_loading] at h
        cases h
      · simp only at hov
        have he := erase_of_length_le_one x.inFlight c (hb hov).1 hc
        simp [he]
    · cases hstep

theorem Executor.run_preserves_inv {Body : Type} (outcomes : Nat → FetchResult Body)
    (evs : List ExecEvent) :
    ∀ x y : Executor, x.Inv → x.run outcomes evs = some y → y.Inv := by
  induction evs with
  | nil =>
    intro x y hx hrun
    simp only [Executor.run, Option.some.injEq] at hrun
    exact hrun ▸ hx
  | cons e es ih =>
    intro x y hx hrun
    simp only [Executor.run] at hrun
    cases hs : x.step outcomes e with
    | none => simp [hs] at hrun
    | some z =>
      rw [hs] at hrun
      exact ih z y (Executor.step_preserves_inv outcomes x z e hx hs) hrun

theorem Executor.initial_inv : Executor.initial.Inv := by
  simp [Executor.Inv, Executor.initial, initialApiState]

theorem Executor.step_start {Body : Type} (outcomes : Nat → FetchResult Body)
    (x y : Executor) (c : Nat) (hstep : x.step outcomes (.start c) = some y) :
    y.api = handleRequestStart x.api := by
  simp only [Executor.step] at hstep
  split at hstep
  · cases hstep
  · cases hstep
    rfl

theorem Executor.step_settle {Body : Type} (outcomes : Nat → FetchResult Body)
    (x y : Executor) (c : Nat) (hstep : x.step outcomes (.settle c) = some y) :
    y.api = (handleRequestSettle x.api (outcomes c)).1 := by
  simp only [Executor.step] at hstep
  split at hstep
  · cases hstep
    rfl
  · cases hstep

theorem Executor.run_error_none {Body : Type} (outcomes : Nat → FetchResult Body)
    (evs : List ExecEvent) :
    ∀ x z : Executor, x.api.error = none →
      (∀ c, ExecEvent.settle c ∈ evs → failureOf (outcomes c) = none) →
      x.run outcomes evs = some z → z.api.error = none := by
  induction evs with
  | nil =>
    intro x z hx _ hrun
    simp only [Executor.run, Option.some.injEq] at hrun
    exact hrun ▸ hx
  | cons e es ih =>
    intro x z hx hok hrun
    simp only [Executor.run] at hrun
    cases hs : x.step outcomes e with
    | none => simp [hs] at hrun
    | some y =>
      rw [hs] at hrun
      refine ih y z ?_ (fun c hc => hok c (List.mem_cons_of_mem _ hc)) hrun
      cases e with
      | start c =>
        rw [Executor.step_start outcomes x y c hs]
        rfl
      | settle c =>
        rw [Executor.step_settle outcomes x y c hs, handleRequestSettle_api,
          hok c (List.mem_cons_self _ _)]
        exact hx

/-! ## Lemmas on the creation form -/

theorem not_truthy (s : String) : (!truthy s) = decide (s = "") := by
  by_cases h : s = "" <;> simp [truthy, h]

theorem validateForm_eq (host : FormHost) (fd : FormData) :
    validateForm host fd =
      (validationErrorsOf (decide (host.trim fd.name = ""))
        (decide (host.trim fd.description = ""))
        (decide (fd.category = "")) (decide (fd.price ≤ 0)) (decide (fd.stock < 0))
        (decide (host.trim fd.image = "")) (host.parsesAsUrl fd.image),
       (validationErrorsOf (decide (host.trim fd.name = ""))
        (decide (host.trim fd.description = ""))
        (decide (fd.category = "")) (decide (fd.price ≤ 0)) (decide (fd.stock < 0))
        (decide (host.trim fd.image = "")) (host.parsesAsUrl fd.image)).length == 0) := by
  simp only [validateForm, validationErrorsOf, not_truthy, isValidUrl, decide_eq_true_eq]

/-! ## Filter pipeline: the view and the clauses -/

/-- C1: a record is in the view computed by `applyFilters` if and only if it is
in the snapshot and satisfies the four clauses at once (text, category, price
range, featured), each optional clause being skipped as the criteria say; and
the four sequential passes equal one pass with the conjunction of the clauses. -/
theorem applyFilters_iff_all_clauses (toLowerCase : String → String)
    (products : List Product) (filters : Filters) :
    (∀ p : Product, p ∈ applyFilters toLowerCase products filters ↔
      p ∈ products ∧
      (filters.query = "" ∨ includes (toLowerCase p.name) (toLowerCase filters.query) = true ∨
        includes (toLowerCase p.description) (toLowerCase filters.query) = true) ∧
      (filters.category = "" ∨ p.category = filters.category) ∧
      (filters.minPrice ≤ p.price ∧ p.price ≤ filters.maxPrice) ∧
      (filters.featuredOnly = false ∨ p.featured = true)) ∧
    applyFilters toLowerCase products filters =
      products.filter (fun p => decide (SatisfiesClauses toLowerCase filters p)) := by
  refine ⟨fun p => ?_, applyFilters_eq_filter toLowerCase products filters⟩
  exact mem_applyFilters_iff toLowerCase products filters p

/-- C2: for all criteria and every snapshot the view is a subsequence of the
snapshot: it keeps the relative order, every record of it occurs in the
snapshot, no record occurs more often than in the snapshot, and it is no
longer than the snapshot. -/
theorem applyFilters_sublist (toLowerCase : String → String) (products : List Product)
    (filters : Filters) :
    (applyFilters toLowerCase products filters).Sublist products ∧
    (∀ p ∈ applyFilters toLowerCase products filters, p ∈ products) ∧
    (∀ p : Product,
      (applyFilters toLowerCase products filters).count p ≤ products.count p) ∧
    (applyFilters toLowerCase products filters).length ≤ products.length := by
  have hsub : (applyFilters toLowerCase products filters).Sublist products := by
    rw [applyFilters_eq_filter]
    exact List.filter_sublist products
  exact ⟨hsub, fun p hp => hsub.subset hp, fun p => hsub.count_le p, hsub.length_le⟩

/-- C3: with the other clauses unconstrained (empty category, every price in
the range, featuredOnly false) a record of the snapshot is kept iff its
lower-cased name or lower-cased description contains the lower-cased query;
with an empty query every record is kept. The lowering function is any
function that maps the empty string to itself. -/
theorem applyFilters_text_clause (toLowerCase : String → String)
    (products : List Product) (filters : Filters)
    (hlower : toLowerCase "" = "")
    (hcat : filters.category = "") (hfeat : filters.featuredOnly = false)
    (hprice : ∀ p ∈ products, filters.minPrice ≤ p.price ∧ p.price ≤ filters.maxPrice) :
    (∀ p : Product, p ∈ applyFilters toLowerCase products filters ↔
      p ∈ products ∧
        (includes (toLowerCase p.name) (toLowerCase filters.query) = true ∨
          includes (toLowerCase p.description) (toLowerCase filters.query) = true)) ∧
    (filters.query = "" → applyFilters toLowerCase products filters = products) := by
  constructor
  · intro p
    rw [mem_applyFilters_iff]
    constructor
    · rintro ⟨hp, hq, -⟩
      refine ⟨hp, ?_⟩
      rcases hq with hq | hq
      · left
        rw [hq, hlower]
        simp [includes]
      · exact hq
    · rintro ⟨hp, hq⟩
      exact ⟨hp, Or.inr hq, Or.inl hcat, hprice p hp, Or.inl hfeat⟩
  · intro hq
    rw [applyFilters_eq_filter, List.filter_eq_self]
    intro p hp
    simp only [decide_eq_true_eq]
    exact ⟨Or.inl hq, Or.inl hcat, hprice p hp, Or.inl hfeat⟩

/-- Witness of C3: the query `x` over the sample snapshot, ASCII lowering; the
first sample record, whose name is `X`, is in the view iff it is in the
snapshot and one of its two fields contains `x` once lower-cased. -/
theorem applyFilters_text_clause_witness :
    (sampleFirst ∈ applyFilters asciiToLowerCase sampleProducts
        { query := "x", category := "", minPrice := 0, maxPrice := 1000,
          featuredOnly := false } ↔
      sampleFirst ∈ sampleProducts ∧
        (includes (asciiToLowerCase sampleFirst.name) (asciiToLowerCase "x") = true ∨
          includes (asciiToLowerCase sampleFirst.description)
            (asciiToLowerCase "x") = true)) :=
  (applyFilters_text_clause asciiToLowerCase sampleProducts
    { query := "x", category := "", minPrice := 0, maxPrice := 1000, featuredOnly := false }
    (by decide) rfl rfl (by decide)).1 sampleFirst

/-- C4: the price clause is inclusive at both ends: when `minPrice <= maxPrice`,
a record of the snapshot that passes the text, category and featured clauses and
whose price equals `minPrice` or equals `maxPrice` is in the view. -/
theorem applyFilters_price_bounds_inclusive (toLowerCase : String → String)
    (products : List Product) (filters : Filters) (p : Product)
    (hrange : filters.minPrice ≤ filters.maxPrice)
    (hp : p ∈ products)
    (htext : filters.query = "" ∨ matchesQuery toLowerCase filters p = true)
    (hcat : filters.category = "" ∨ p.category = filters.category)
    (hfeat : filters.featuredOnly = false ∨ p.featured = true)
    (hprice : p.price = filters.minPrice ∨ p.price = filters.maxPrice) :
    p ∈ applyFilters toLowerCase products filters := by
  rw [mem_applyFilters_iff]
  refine ⟨hp, ?_, hcat, ?_, hfeat⟩
  · rcases htext with h | h
    · exact Or.inl h
    · right
      simpa [matchesQuery] using h
  · rcases hprice with h | h
    · rw [h]
      exact ⟨le_refl _, hrange⟩
    · rw [h]
      exact ⟨hrange, le_refl _⟩

/-- Witness of C4: the record priced 10 with the range `[10, 50]`. -/
theorem applyFilters_price_bounds_inclusive_witness :
    sampleFirst ∈ applyFilters asciiToLowerCase sampleProducts
      { query := "", category := "", minPrice := 10, maxPrice := 50, featuredOnly := false } :=
  applyFilters_price_bounds_inclusive asciiToLowerCase sampleProducts
    { query := "", category := "", minPrice := 10, maxPrice := 50, featuredOnly := false }
    sampleFirst (by decide) (by decide) (Or.inl rfl) (Or.inl rfl) (Or.inl rfl) (Or.inl rfl)

/-- C5: when `minPrice > maxPrice` the view is empty whatever the snapshot, the
query, the category and featuredOnly are: the bounds are neither validated nor
swapped. -/
theorem applyFilters_empty_of_min_gt_max (toLowerCase : String → String)
    (products : List Product) (filters : Filters)
    (h : filters.minPrice > filters.maxPrice) :
    applyFilters toLowerCase products filters = [] := by
  rw [applyFilters_eq_filter, List.filter_eq_nil_iff]
  intro p _
  simp only [decide_eq_true_eq, SatisfiesClauses]
  rintro ⟨-, -, ⟨h1, h2⟩, -⟩
  exact absurd (le_trans h1 h2) (not_le.mpr h)

/-- Witness of C5: the range `[50, 0]` over the sample snapshot. -/
theorem applyFilters_empty_of_min_gt_max_witness :
    applyFilters asciiToLowerCase sampleProducts
      { query := "", category := "", minPrice := 50, maxPrice := 0, featuredOnly := false } = [] :=
  applyFilters_empty_of_min_gt_max asciiToLowerCase sampleProducts
    { query := "", category := "", minPrice := 50, maxPrice := 0, featuredOnly := false }
    (by decide)

/-! ## Request executor: success and failure paths -/

/-- Counterexample to C6: two calls overlap as in the dashboard; call 0 starts
from `loading = false` and its fetch resolves with success, call 1 fails and
settles first; after call 0 has settled, last, `error` is not null: it is the
message of call 1. -/
theorem success_settles_with_error_left :
    Executor.initial.api.loading = false ∧
    failureOf (secondFailsOutcomes 0) = none ∧
    Executor.initial.run secondFailsOutcomes [.start 0, .start 1, .settle 1, .settle 0] =
      some sampleSuccessSettledLast ∧
    sampleSuccessSettledLast.settled.head? = some 0 ∧
    sampleSuccessSettledLast.api.error = some "Network error" ∧
    sampleSuccessSettledLast.api.error ≠ none := by
  decide

/-- C6, amended: success path of the request executor. For every operation of
the hook whose fetch resolves with a success response and a parseable body:
run with no other call between its start and its settle, from every state (so
also from `loading = false` with an error left by a previous call), `loading`
is true while it is in flight and false after it settles, `error` is null
after it settles and the operation returns the parsed body. With other calls
of the same instance in between, whatever the state `s2` is when the fetch
settles, the call returns the parsed body, sets `loading` to false and leaves
`error` as it is in `s2`; in the step machine `loading` is true right after
the start, false right after the settle, and `error` is null after the settle
when no call has settled with a failure since the start. -/
theorem useApi_success_path {Body : Type} (host : Host Body) (s : ApiState) (op : Operation)
    (response : Response Body) (body : Body)
    (hfetch : op.fetched host = .resolved response)
    (hok : response.ok = true) (hjson : response.json = .ok body) :
    (op.run host s).pending.loading = true ∧
    (op.run host s).settled.loading = false ∧
    (op.run host s).settled.error = none ∧
    (op.run host s).result = .ok body ∧
    (∀ s2 : ApiState,
      handleRequestSettle s2 (op.fetched host) = ({ s2 with loading := false }, .ok body)) ∧
    (∀ (outcomes : Nat → FetchResult Body) (c : Nat) (x y z w : Executor)
        (evs : List ExecEvent),
      outcomes c = op.fetched host →
      x.step outcomes (.start c) = some y →
      y.run outcomes evs = some z →
      z.step outcomes (.settle c) = some w →
      y.api.loading = true ∧ w.api.loading = false ∧ w.api.error = z.api.error ∧
      ((∀ c2, ExecEvent.settle c2 ∈ evs → failureOf (outcomes c2) = none) →
        w.api.error = none)) := by
  have hp := Operation.run_pending host s op
  have hs := Operation.run_settled host s op
  have ht : tryBlock (op.fetched host) = .ok body := by
    rw [hfetch]
    simp [tryBlock, hok, hjson]
  have hsettle : ∀ s2 : ApiState,
      handleRequestSettle s2 (op.fetched host) = ({ s2 with loading := false }, .ok body) := by
    intro s2
    simp only [handleRequestSettle, ht]
  rw [Prod.ext_iff] at hs
  obtain ⟨hs1, hs2⟩ := hs
  simp only at hs1 hs2
  refine ⟨?_, ?_, ?_, ?_, hsettle, ?_⟩
  · rw [hp]
    rfl
  · rw [hs1, hsettle]
  · rw [hs1, hsettle]
    rfl
  · rw [hs2, hsettle]
  · intro outcomes c x y z w evs hc hstart hrun hend
    have hy := Executor.step_start outcomes x y c hstart
    have hw := Executor.step_settle outcomes z w c hend
    rw [hc, hsettle] at hw
    refine ⟨by rw [hy]; rfl, by rw [hw], by rw [hw], fun hall => ?_⟩
    rw [hw]
    exact Executor.run_error_none outcomes evs y z (by rw [hy]; rfl) hall hrun

/-- Witness of C6: `getProducts` answered 200 with the body 0, alone from a
state in which a previous call had left an error, and as call 0 of the step
machine with a second successful call started and settled in between. -/
theorem useApi_success_path_witness :
    (Operation.getProducts.run
        (constHost (.resolved { ok := true, status := 200, json := .ok 0 }) : Host Nat)
        { loading := false, error := some "Network error" }).pending.loading = true ∧
    (Operation.getProducts.run
        (constHost (.resolved { ok := true, status := 200, json := .ok 0 }) : Host Nat)
        { loading := false, error := some "Network error" }).settled.loading = false ∧
    (Operation.getProducts.run
        (constHost (.resolved { ok := true, status := 200, json := .ok 0 }) : Host Nat)
        { loading := false, error := some "Network error" }).settled.error = none ∧
    (Operation.getProducts.run
        (constHost (.resolved { ok := true, status := 200, json := .ok 0 }) : Host Nat)
        { loading := false, error := some "Network error" }).result = .ok (0 : Nat) ∧
    Executor.initial.step successOutcomes (.start 0) = some sampleFirstStarted ∧
    sampleFirstStarted.run successOutcomes [.start 1, .settle 1] = some sampleSecondSettled ∧
    sampleSecondSettled.step successOutcomes (.settle 0) = some sampleBothSucceeded ∧
    sampleBothSucceeded.api.loading = false ∧
    sampleBothSucceeded.api.error = none := by
  have h := useApi_success_path
    (constHost (.resolved { ok := true, status := 200, json := .ok 0 }) : Host Nat)
    { loading := false, error := some "Network error" } Operation.getProducts
    { ok := true, status := 200, json := .ok 0 } 0 rfl rfl rfl
  obtain ⟨h1, h2, h3, h4, -, h6⟩ := h
  have h7 := h6 successOutcomes 0 Executor.initial sampleFirstStarted sampleSecondSettled
    sampleBothSucceeded [.start 1, .settle 1] rfl (by decide) (by decide) (by decide)
  exact ⟨h1, h2, h3, h4, by decide, by decide, by decide, h7.2.1, h7.2.2.2 (fun _ _ => rfl)⟩

/-- Counterexample to C7: two calls overlap as in the dashboard, call 1 is the
one that fails; after call 0 has settled `loading` is false while the failing
call 1 is still in flight. -/
theorem loading_false_while_failing_call_in_flight :
    failureOf (secondFailsOutcomes 1) = some (.error "Network error") ∧
    Executor.initial.run secondFailsOutcomes [.start 0, .start 1, .settle 0] =
      some sampleAfterFirstSettle ∧
    1 ∈ sampleAfterFirstSettle.inFlight ∧
    sampleAfterFirstSettle.api.loading = false ∧
    sampleAfterFirstSettle.api.loading ≠ true := by
  decide

/-- C7, amended: failure path of the request executor. For every operation of
the hook whose fetch rejects or whose response is not ok: run with no other
call between its start and its settle, `loading` is true while it is in flight
and false after it settles, `error` ends with the message of the failure and
that same failure is what the caller receives (the rejection reason itself
when the fetch rejected). With other calls of the same instance in between,
whatever the state is when the fetch settles, the call stores the message,
sets `loading` to false and raises the same failure; `loading` is true right
after the start, and in every state reached without two calls overlapping it
is true while the call is in flight. -/
theorem useApi_failure_path {Body : Type} (host : Host Body) (s : ApiState) (op : Operation)
    (hfail : (∃ reason, op.fetched host = .rejected reason) ∨
      (∃ response, op.fetched host = .resolved response ∧ response.ok = false)) :
    (op.run host s).pending.loading = true ∧
    (op.run host s).settled.loading = false ∧
    ∃ err : Thrown,
      (op.run host s).settled.error = some (errorMessage err) ∧
      (op.run host s).result = .error err ∧
      (∀ reason, op.fetched host = .rejected reason → err = reason) ∧
      (∀ s2 : ApiState,
        handleRequestSettle s2 (op.fetched host) =
          ({ loading := false, error := some (errorMessage err) }, .error err)) ∧
      (∀ (outcomes : Nat → FetchResult Body) (c : Nat) (x y : Executor),
        outcomes c = op.fetched host →
        (x.step outcomes (.start c) = some y → y.api.loading = true) ∧
        (x.step outcomes (.settle c) = some y →
          y.api.loading = false ∧ y.api.error = some (errorMessage err))) ∧
      (∀ (outcomes : Nat → FetchResult Body) (evs : List ExecEvent) (x : Executor) (c : Nat),
        outcomes c = op.fetched host →
        Executor.initial.run outcomes evs = some x →
        c ∈ x.inFlight → x.overlapped = false → x.api.loading = true) := by
  have hp := Operation.run_pending host s op
  have hs := Operation.run_settled host s op
  rw [Prod.ext_iff] at hs
  obtain ⟨hs1, hs2⟩ := hs
  simp only at hs1 hs2
  have key : ∃ err : Thrown, tryBlock (op.fetched host) = .error err ∧
      (∀ reason, op.fetched host = .rejected reason → err = reason) := by
    rcases hfail with ⟨reason, hr⟩ | ⟨response, hr, hok⟩
    · refine ⟨reason, by rw [hr]; rfl, ?_⟩
      intro reason2 h
      rw [hr] at h
      cases h
      rfl
    · refine ⟨Thrown.error ("HTTP error! status: " ++ toString response.status), ?_, ?_⟩
      · rw [hr]
        simp [tryBlock, hok]
      · intro reason2 h
        rw [hr] at h
        cases h
  obtain ⟨err, ht, hreason⟩ := key
  have hsettle : ∀ s2 : ApiState,
      handleRequestSettle s2 (op.fetched host) =
        ({ loading := false, error := some (errorMessage err) }, .error err) := by
    intro s2
    simp only [handleRequestSettle, ht]
  refine ⟨by rw [hp]; rfl, by rw [hs1, hsettle], err, by rw [hs1, hsettle],
    by rw [hs2, hsettle], hreason, hsettle, ?_, ?_⟩
  · intro outcomes c x y hc
    refine ⟨fun h => ?_, fun h => ?_⟩
    · rw [Executor.step_start outcomes x y c h]
      rfl
    · rw [Executor.step_settle outcomes x y c h, hc, hsettle]
      exact ⟨rfl, rfl⟩
  · intro outcomes evs x c _ hrun hin hov
    obtain ⟨-, hb⟩ :=
      Executor.run_preserves_inv outcomes evs Executor.initial x Executor.initial_inv hrun
    exact (hb hov).2 (List.ne_nil_of_mem hin)

/-- Witness of C7: `deleteProduct 1` over a network that refuses the connection. -/
theorem useApi_failure_path_witness :
    ((Operation.deleteProduct (.num 1)).run
        (constHost (.rejected (.error "Failed to fetch")) : Host Nat)
        initialApiState).pending.loading = true ∧
    ((Operation.deleteProduct (.num 1)).run
        (constHost (.rejected (.error "Failed to fetch")) : Host Nat)
        initialApiState).settled.loading = false ∧
    ((Operation.deleteProduct (.num 1)).run
        (constHost (.rejected (.error "Failed to fetch")) : Host Nat)
        initialApiState).settled.error = some "Failed to fetch" ∧
    ((Operation.deleteProduct (.num 1)).run
        (constHost (.rejected (.error "Failed to fetch")) : Host Nat)
        initialApiState).result = .error (.error "Failed to fetch") := by
  obtain ⟨h1, h2, err, h3, h4, h5, -, -, -⟩ :=
    useApi_failure_path (constHost (.rejected (.error "Failed to fetch")) : Host Nat)
      initialApiState (Operation.deleteProduct (.num 1))
      (Or.inl ⟨.error "Failed to fetch", rfl⟩)
  have herr : err = .error "Failed to fetch" := h5 _ rfl
  subst herr
  exact ⟨h1, h2, h3, h4⟩

/-- C8: the stored message is determined by the failure kind. For a response
that is not ok with status `s` it is `HTTP error! status: ` followed by `s`
in decimal, and for a fetch rejected with an `Error` of description `d` it is
`d`. -/
theorem useApi_error_message {Body : Type} (host : Host Body) (s : ApiState) (op : Operation) :
    (∀ response : Response Body, op.fetched host = .resolved response → response.ok = false →
      (op.run host s).settled.error =
        some ("HTTP error! status: " ++ toString response.status)) ∧
    (∀ d : String, op.fetched host = .rejected (.error d) →
      (op.run host s).settled.error = some d) := by
  have hs := Operation.run_settled host s op
  constructor
  · intro response hr hok
    have ht : tryBlock (op.fetched host) =
        .error (Thrown.error ("HTTP error! status: " ++ toString response.status)) := by
      rw [hr]
      simp [tryBlock, hok]
    simp only [handleRequestSettle, ht, Prod.mk.injEq] at hs
    rw [hs.1]
    rfl
  · intro d hr
    have ht : tryBlock (op.fetched host) = .error (.error d) := by
      rw [hr]
      rfl
    simp only [handleRequestSettle, ht, Prod.mk.injEq] at hs
    rw [hs.1]
    rfl

/-- Witness of C8: status 404 gives `HTTP error! status: 404`, and a fetch
rejected with `Network error` gives `Network error`. -/
theorem useApi_error_message_witness :
    (Operation.getProducts.run
        (constHost (.resolved { ok := false, status := 404, json := .ok 0 }) : Host Nat)
        initialApiState).settled.error = some "HTTP error! status: 404" ∧
    (Operation.getProducts.run
        (constHost (.rejected (.error "Network error")) : Host Nat)
        initialApiState).settled.error = some "Network error" :=
  ⟨(useApi_error_message
      (constHost (.resolved { ok := false, status := 404, json := .ok 0 }) : Host Nat)
      initialApiState Operation.getProducts).1 { ok := false, status := 404, json := .ok 0 }
      rfl rfl,
   (useApi_error_message (constHost (.rejected (.error "Network error")) : Host Nat)
      initialApiState Operation.getProducts).2 "Network error" rfl⟩

/-! ## Edit session: commit -/

/-- C9: commit failure retains the working copy. For every Editing session
with working copy `c`, if the update call made by `handleSave` fails, the
session is still Editing with the working copy `c` (every field equal), the
rest of the component state is unchanged, and no refresh is issued: the only
call made is the update. -/
theorem handleSave_failure_retains_working_copy {β : Type} (st : ProductsState) (c : Product)
    (err : Thrown) (listOutcome : Except Thrown (List Product))
    (hedit : st.editingProduct = some c) :
    (handleSave st c (.error err : Except Thrown β) listOutcome).1.editingProduct = some c ∧
    (handleSave st c (.error err : Except Thrown β) listOutcome).1 = st ∧
    ApiCall.getProducts ∉ (handleSave st c (.error err : Except Thrown β) listOutcome).2 ∧
    (handleSave st c (.error err : Except Thrown β) listOutcome).2 =
      [ApiCall.updateProduct c.id (savePayload c)] := by
  refine ⟨hedit, rfl, ?_, rfl⟩
  simp [handleSave]

/-- Witness of C9: an edit of the first sample record whose save is answered 500. -/
theorem handleSave_failure_retains_working_copy_witness :
    (handleSave sampleEditing sampleWorkingCopy
        (.error (.error "HTTP error! status: 500") : Except Thrown Nat)
        (.ok sampleProducts)).1.editingProduct = some sampleWorkingCopy ∧
    (handleSave sampleEditing sampleWorkingCopy
        (.error (.error "HTTP error! status: 500") : Except Thrown Nat)
        (.ok sampleProducts)).2 = [ApiCall.updateProduct 1 (savePayload sampleWorkingCopy)] :=
  ⟨(handleSave_failure_retains_working_copy sampleEditing sampleWorkingCopy
      (.error "HTTP error! status: 500") (.ok sampleProducts) rfl).1,
   (handleSave_failure_retains_working_copy sampleEditing sampleWorkingCopy
      (.error "HTTP error! status: 500") (.ok sampleProducts) rfl).2.2.2⟩

/-- C10: commit payload. For every working copy `c` and however the calls
settle, `handleSave` calls update exactly once, first, with identifier `c.id`
and a payload whose keys are exactly name, description, category, price, stock,
image and featured, each bound to the value of `c`; the payload has no `id`
key; any further call is a `getProducts`. -/
theorem handleSave_payload {β : Type} (st : ProductsState) (c : Product)
    (updateOutcome : Except Thrown β) (listOutcome : Except Thrown (List Product)) :
    ∃ (payload : JsObject) (rest : List ApiCall),
      (handleSave st c updateOutcome listOutcome).2 =
        ApiCall.updateProduct c.id payload :: rest ∧
      (∀ call ∈ rest, call = ApiCall.getProducts) ∧
      payload.map Prod.fst =
        ["name", "description", "category", "price", "stock", "image", "featured"] ∧
      payload.lookup "name" = some (.str c.name) ∧
      payload.lookup "description" = some (.str c.description) ∧
      payload.lookup "category" = some (.str c.category) ∧
      payload.lookup "price" = some (.num c.price) ∧
      payload.lookup "stock" = some (.num c.stock) ∧
      payload.lookup "image" = some (.str c.image) ∧
      payload.lookup "featured" = some (.bool c.featured) ∧
      payload.lookup "id" = none := by
  refine ⟨savePayload c, ((handleSave st c updateOutcome listOutcome).2).tail, ?_, ?_,
    rfl, rfl, rfl, rfl, rfl, rfl, rfl, rfl, rfl⟩
  · cases updateOutcome <;> rfl
  · cases updateOutcome with
    | error e => simp [handleSave]
    | ok v => cases listOutcome <;> simp [handleSave, fetchProducts]

/-! ## Edit session: transitions -/

/-- C11: commit success. For every session and working copy `c`, if the update
call made by `handleSave` succeeds, the session becomes Idle and the calls
issued are the update followed by one `getProducts`, in that order; when that
list call fulfils with `L` the snapshot becomes `L`. The refresh depends on the
completion of the update: when the update fails no `getProducts` is issued. -/
theorem handleSave_success_resets_and_refreshes {β : Type} (st : ProductsState) (c : Product)
    (v : β) (listOutcome : Except Thrown (List Product)) (L : List Product) (err : Thrown) :
    (handleSave st c (.ok v : Except Thrown β) listOutcome).1.editingProduct = none ∧
    (handleSave st c (.ok v : Except Thrown β) listOutcome).2 =
      [ApiCall.updateProduct c.id (savePayload c), ApiCall.getProducts] ∧
    (handleSave st c (.ok v : Except Thrown β) (.ok L)).1.products = L ∧
    ApiCall.getProducts ∉ (handleSave st c (.error err : Except Thrown β) listOutcome).2 := by
  refine ⟨?_, ?_, rfl, ?_⟩
  · cases listOutcome <;> rfl
  · cases listOutcome <;> rfl
  · simp [handleSave]

/-- C12: at most one edit session, last edit wins. Beginning an edit on `A`
and then on `B` leaves a session whose working copy is `B`, and the snapshot is
unchanged, so a record `A` of the snapshot is still in it. -/
theorem handleEdit_last_edit_wins (st : ProductsState) (A B : Product) :
    (handleEdit (handleEdit st A) B).editingProduct = some B ∧
    (handleEdit (handleEdit st A) B).products = st.products ∧
    (A ∈ st.products → A ∈ (handleEdit (handleEdit st A) B).products) ∧
    (dispatch (dispatch st (UiEvent.edit A : UiEvent Unit)).1
      (UiEvent.edit B : UiEvent Unit)) = (handleEdit (handleEdit st A) B, []) :=
  ⟨rfl, rfl, fun h => h, rfl⟩

/-- Witness of C12: editing the first sample record, then the second. -/
theorem handleEdit_last_edit_wins_witness :
    (handleEdit (handleEdit sampleIdle sampleFirst) sampleSecond).editingProduct =
      some sampleSecond ∧
    sampleFirst ∈ (handleEdit (handleEdit sampleIdle sampleFirst) sampleSecond).products :=
  ⟨(handleEdit_last_edit_wins sampleIdle sampleFirst sampleSecond).1,
   (handleEdit_last_edit_wins sampleIdle sampleFirst sampleSecond).2.2.1 (by decide)⟩

/-- C13: a field-level mutation is framed. In an Editing session with working
copy `c`, the handler of a field leaves a working copy whose written field has
the new value and whose id and six other fields are those of `c`; in the Idle
state the session stays Idle; in both states the snapshot, the filters and the
image flags are unchanged and no call is issued. -/
theorem changeField_frame {β : Type} (st : ProductsState) (e : FieldEdit) :
    (∀ c : Product, st.editingProduct = some c →
      ∃ c2 : Product,
        (dispatch st (UiEvent.change e : UiEvent β)).1.editingProduct = some c2 ∧
        c2.get e.field = e.value ∧
        (∀ f : FieldName, f ≠ e.field → c2.get f = c.get f) ∧
        c2.id = c.id) ∧
    (st.editingProduct = none →
      (dispatch st (UiEvent.change e : UiEvent β)).1.editingProduct = none) ∧
    (dispatch st (UiEvent.change e : UiEvent β)).1.products = st.products ∧
    (dispatch st (UiEvent.change e : UiEvent β)).1.filters = st.filters ∧
    (dispatch st (UiEvent.change e : UiEvent β)).1.imageErrors = st.imageErrors ∧
    (dispatch st (UiEvent.change e : UiEvent β)).2 = [] := by
  refine ⟨?_, ?_, rfl, rfl, rfl, rfl⟩
  · intro c hc
    have hd : (dispatch st (UiEvent.change e : UiEvent β)).1.editingProduct =
        e.updater (some c) := by
      simp [dispatch, changeField, hc]
    rw [hd]
    cases e <;> refine ⟨_, rfl, rfl, ?_, rfl⟩ <;> intro f hf <;> cases f <;>
      first | rfl | exact absurd rfl hf
  · intro hc
    simp [dispatch, changeField, hc, FieldEdit.updater]

/-- Witness of C13: the price field of the sample working copy set to 15. -/
theorem changeField_frame_witness :
    (dispatch sampleEditing (UiEvent.change (.price 15) : UiEvent Unit)).1.editingProduct =
      some { sampleWorkingCopy with price := 15 } ∧
    (dispatch sampleIdle (UiEvent.change (.price 15) : UiEvent Unit)).1.editingProduct = none := by
  obtain ⟨c2, h1, h2, -, -⟩ :=
    (@changeField_frame Unit sampleEditing (.price 15)).1 sampleWorkingCopy rfl
  exact ⟨rfl, (@changeField_frame Unit sampleIdle (.price 15)).2.1 rfl⟩

/-- C14: cancel. From every session state, cancel leaves the session Idle, the
snapshot, the filters and the image flags as they were, and issues no call. -/
theorem cancelEdit_discards_working_copy {β : Type} (st : ProductsState) :
    (dispatch st (UiEvent.cancel : UiEvent β)).1.editingProduct = none ∧
    (dispatch st (UiEvent.cancel : UiEvent β)).1.products = st.products ∧
    (dispatch st (UiEvent.cancel : UiEvent β)).1.filters = st.filters ∧
    (dispatch st (UiEvent.cancel : UiEvent β)).1.imageErrors = st.imageErrors ∧
    (dispatch st (UiEvent.cancel : UiEvent β)).2 = [] :=
  ⟨rfl, rfl, rfl, rfl, rfl⟩

/-! ## Deletion, refresh and derived data -/

/-- Counterexample to C15: with an edit in progress, a delete whose call is
answered 500 issues the remove and no refresh, and a delete declined at the
confirmation prompt issues no call at all; neither is the remove followed by a
refresh. -/
theorem handleDelete_not_always_remove_then_refresh :
    (handleDelete sampleEditing sampleFirst.id true
        (.error (.error "HTTP error! status: 500") : Except Thrown Unit)
        (.ok [sampleSecond])).2 = [ApiCall.deleteProduct 1] ∧
    (handleDelete sampleEditing sampleFirst.id true
        (.error (.error "HTTP error! status: 500") : Except Thrown Unit)
        (.ok [sampleSecond])).2 ≠ [ApiCall.deleteProduct 1, ApiCall.getProducts] ∧
    (handleDelete sampleEditing sampleFirst.id false (.ok () : Except Thrown Unit)
        (.ok [sampleSecond])).2 = [] ∧
    (handleDelete sampleEditing sampleFirst.id false (.ok () : Except Thrown Unit)
        (.ok [sampleSecond])).2 ≠ [ApiCall.deleteProduct 1, ApiCall.getProducts] := by
  decide

/-- C15, amended: deletion is independent of the edit session. For every
record `R` and every session state, `handleDelete` leaves the edit session as
it was. When the prompt is confirmed it calls remove with `R.id` first; when
that call succeeds a refresh follows, and when it fails nothing follows and the
state is unchanged. When the prompt is declined no call is issued and the state
is unchanged. -/
theorem handleDelete_independent_of_session {β : Type} (st : ProductsState) (R : Product)
    (confirmed : Bool) (deleteOutcome : Except Thrown β)
    (listOutcome : Except Thrown (List Product)) :
    (handleDelete st R.id confirmed deleteOutcome listOutcome).1.editingProduct =
      st.editingProduct ∧
    (confirmed = true → ∀ v : β, deleteOutcome = .ok v →
      (handleDelete st R.id confirmed deleteOutcome listOutcome).2 =
        [ApiCall.deleteProduct R.id, ApiCall.getProducts]) ∧
    (confirmed = true → ∀ err : Thrown, deleteOutcome = .error err →
      (handleDelete st R.id confirmed deleteOutcome listOutcome) =
        (st, [ApiCall.deleteProduct R.id])) ∧
    (confirmed = false →
      (handleDelete st R.id confirmed deleteOutcome listOutcome) = (st, [])) := by
  refine ⟨?_, ?_, ?_, ?_⟩
  · cases confirmed <;> cases deleteOutcome <;> cases listOutcome <;> rfl
  · rintro rfl v rfl
    cases listOutcome <;> rfl
  · rintro rfl err rfl
    rfl
  · rintro rfl
    rfl

/-- Witness of C15: a confirmed delete of the record being edited, answered
with success, then a refresh returning the remaining record. -/
theorem handleDelete_independent_of_session_witness :
    (handleDelete sampleEditing sampleFirst.id true (.ok () : Except Thrown Unit)
        (.ok [sampleSecond])).1.editingProduct = some sampleWorkingCopy ∧
    (handleDelete sampleEditing sampleFirst.id true (.ok () : Except Thrown Unit)
        (.ok [sampleSecond])).2 = [ApiCall.deleteProduct 1, ApiCall.getProducts] ∧
    (handleDelete sampleEditing sampleFirst.id true
        (.error (.error "HTTP error! status: 500") : Except Thrown Unit)
        (.ok [sampleSecond])) = (sampleEditing, [ApiCall.deleteProduct 1]) ∧
    (handleDelete sampleEditing sampleFirst.id false (.ok () : Except Thrown Unit)
        (.ok [sampleSecond])) = (sampleEditing, []) :=
  ⟨(handleDelete_independent_of_session sampleEditing sampleFirst true (.ok ())
      (.ok [sampleSecond])).1,
   (handleDelete_independent_of_session sampleEditing sampleFirst true (.ok ())
      (.ok [sampleSecond])).2.1 rfl () rfl,
   (handleDelete_independent_of_session sampleEditing sampleFirst true
      (.error (.error "HTTP error! status: 500")) (.ok [sampleSecond])).2.2.1 rfl _ rfl,
   (handleDelete_independent_of_session sampleEditing sampleFirst false (.ok ())
      (.ok [sampleSecond])).2.2.2 rfl⟩

/-- C16: snapshot refresh replaces, never merges. After a `fetchProducts` whose
list call fulfils with `L` the snapshot is `L` whatever it was before, and the
rest of the state is unchanged; when the list call fails the whole state is
unchanged. Scenario: on the two-record sample snapshot, remove(1) followed by
the refresh of a store holding only the record with id 2 leaves a one-record
snapshot without id 1. -/
theorem fetchProducts_replaces_snapshot (st : ProductsState) (L : List Product)
    (err : Thrown) :
    (fetchProducts st (.ok L)).1.products = L ∧
    (fetchProducts st (.ok L)).1.editingProduct = st.editingProduct ∧
    (fetchProducts st (.ok L)).1.filters = st.filters ∧
    (fetchProducts st (.error err)).1 = st ∧
    (fetchProducts st (.ok L)).2 = [ApiCall.getProducts] ∧
    (handleDelete sampleIdle 1 true (.ok () : Except Thrown Unit)
      (.ok [sampleSecond])).1.products = [sampleSecond] ∧
    (handleDelete sampleIdle 1 true (.ok () : Except Thrown Unit)
      (.ok [sampleSecond])).1.products.length = 1 ∧
    (∀ p ∈ (handleDelete sampleIdle 1 true (.ok () : Except Thrown Unit)
      (.ok [sampleSecond])).1.products, p.id ≠ 1) := by
  refine ⟨rfl, rfl, rfl, rfl, rfl, rfl, rfl, ?_⟩
  decide

/-- C17: category set derivation. For every snapshot the derived list holds
exactly the category values that occur in the snapshot, each once; for a
snapshot whose categories are Audio, Audio, Wearables it is Audio, Wearables. -/
theorem categories_distinct_values (products : List Product) (p1 p2 p3 : Product) :
    (∀ c : String, c ∈ categories products ↔ ∃ p ∈ products, p.category = c) ∧
    (categories products).Nodup ∧
    categories [{ p1 with category := "Audio" }, { p2 with category := "Audio" },
      { p3 with category := "Wearables" }] = ["Audio", "Wearables"] := by
  obtain ⟨h1, h2⟩ :=
    foldl_setAdd_spec (products.map (fun p => p.category)) [] List.nodup_nil
  refine ⟨fun c => ?_, h1, ?_⟩
  · unfold categories newSet
    rw [h2]
    simp
  · rfl

/-- C18: end-to-end filter scenario. For the snapshot of the two records
(id 1, X, price 10, stock 5, category A, not featured) and (id 2, Y, price
200, stock 2, category B, featured), whatever their descriptions and images,
and the criteria minPrice 0, maxPrice 50, featuredOnly false with no query and
no category, the view is exactly the record with id 1. -/
theorem applyFilters_scenario (toLowerCase : String → String) (d1 i1 d2 i2 : String) :
    applyFilters toLowerCase
      [ { id := 1, name := "X", description := d1, category := "A", price := 10, stock := 5,
          image := i1, featured := false },
        { id := 2, name := "Y", description := d2, category := "B", price := 200, stock := 2,
          image := i2, featured := true } ]
      { query := "", category := "", minPrice := 0, maxPrice := 50, featuredOnly := false } =
      [ { id := 1, name := "X", description := d1, category := "A", price := 10, stock := 5,
          image := i1, featured := false } ] := by
  simp only [applyFilters, truthy, bne_self_eq_false, Bool.false_eq_true, if_false]
  rw [List.filter_cons_of_pos, List.filter_cons_of_neg, List.filter_nil]
  · simp only [inPriceRange]
    norm_num
  · simp only [inPriceRange]
    norm_num

/-! ## Overlapping calls: the shared state -/

/-- Counterexample to C19: two calls start one after the other, as in the
dashboard, and the first one settles; the state reached has `loading` false
while call 1 is still in flight. -/
theorem loading_false_while_call_in_flight :
    Executor.initial.run successOutcomes [.start 0, .start 1, .settle 0] =
      some sampleAfterFirstSettle ∧
    sampleAfterFirstSettle.inFlight = [1] ∧
    sampleAfterFirstSettle.api.loading = false ∧
    ¬ (sampleAfterFirstSettle.api.loading = true ↔ sampleAfterFirstSettle.inFlight ≠ []) := by
  decide

/-- C19, amended: in every reachable state of the hook, if `loading` is true
then some call has started and not yet settled; and as long as no call has
started while another was in flight, `loading` is true if and only if a call
has started and not yet settled. -/
theorem loading_iff_in_flight_without_overlap {Body : Type}
    (outcomes : Nat → FetchResult Body) (evs : List ExecEvent) (x : Executor)
    (hrun : Executor.initial.run outcomes evs = some x) :
    (x.api.loading = true → x.inFlight ≠ []) ∧
    (x.overlapped = false → (x.api.loading = true ↔ x.inFlight ≠ [])) := by
  obtain ⟨ha, hb⟩ :=
    Executor.run_preserves_inv outcomes evs Executor.initial x Executor.initial_inv hrun
  exact ⟨ha, fun hov => ⟨ha, (hb hov).2⟩⟩

/-- Witness of C19: call 0 has run to its end, call 1 is in flight. -/
theorem loading_iff_in_flight_without_overlap_witness :
    Executor.initial.run successOutcomes [.start 0, .settle 0, .start 1] =
      some sampleSecondInFlight ∧
    (sampleSecondInFlight.api.loading = true ↔ sampleSecondInFlight.inFlight ≠ []) :=
  ⟨by decide,
   (loading_iff_in_flight_without_overlap successOutcomes [.start 0, .settle 0, .start 1]
      sampleSecondInFlight (by decide)).2 rfl⟩

/-- Counterexample to C20: two calls overlap, call 0 fails with `Network error`
and settles first, call 1 succeeds and settles last; once both have settled the
call that settled last has succeeded and `error` is not null: it is the
message of call 0. -/
theorem error_not_null_after_last_call_succeeds :
    Executor.initial.run sampleOutcomes [.start 0, .start 1, .settle 0, .settle 1] =
      some sampleBothSettled ∧
    sampleBothSettled.settled.head? = some 1 ∧
    failureOf (sampleOutcomes 1) = none ∧
    sampleBothSettled.api.error = some "Network error" ∧
    sampleBothSettled.api.error ≠ none := by
  decide

/-- C20, amended: for every interleaving of the start and settle events of two
calls, once both have settled `loading` is false and no call is in flight; if
the call that settled last failed, `error` is that call's message; if it
succeeded, `error` is null when the two calls did not overlap or the other call
succeeded too, and it is the message of the other call when the calls
overlapped and the other call failed. -/
theorem error_after_two_calls_settle {Body : Type} (outcomes : Nat → FetchResult Body)
    (evs : List ExecEvent) (x : Executor)
    (hperm : evs.Perm [.start 0, .start 1, .settle 0, .settle 1])
    (hrun : Executor.initial.run outcomes evs = some x) :
    x.inFlight = [] ∧ x.api.loading = false ∧
    ∃ last other : Nat, x.settled = [last, other] ∧
      (∀ err : Thrown, failureOf (outcomes last) = some err →
        x.api.error = some (errorMessage err)) ∧
      (failureOf (outcomes last) = none →
        x.api.error =
          if x.overlapped then (failureOf (outcomes other)).map errorMessage else none) := by
  have hlen := hperm.length_eq
  match evs, hlen with
  | [e1, e2, e3, e4], _ =>
    have h1 : e1 ∈ [ExecEvent.start 0, .start 1, .settle 0, .settle 1] :=
      hperm.subset (by simp)
    have h2 : e2 ∈ [ExecEvent.start 0, .start 1, .settle 0, .settle 1] :=
      hperm.subset (by simp)
    have h3 : e3 ∈ [ExecEvent.start 0, .start 1, .settle 0, .settle 1] :=
      hperm.subset (by simp)
    have h4 : e4 ∈ [ExecEvent.start 0, .start 1, .settle 0, .settle 1] :=
      hperm.subset (by simp)
    clear hperm
    simp only [List.mem_cons, List.mem_singleton, List.not_mem_nil, or_false] at h1 h2 h3 h4
    rcases h1 with rfl | rfl | rfl | rfl <;>
      simp only [Executor.run, Executor.step, Executor.initial, List.not_mem_nil, or_self,
        if_false, if_true, reduceCtorEq] at hrun <;>
    rcases h2 with rfl | rfl | rfl | rfl <;>
      simp [Executor.run, Executor.step, handleRequestSettle_api] at hrun <;>
    rcases h3 with rfl | rfl | rfl | rfl <;>
      simp [Executor.run, Executor.step, handleRequestSettle_api] at hrun <;>
    rcases h4 with rfl | rfl | rfl | rfl <;>
      simp [Executor.run, Executor.step, handleRequestSettle_api] at hrun <;>
    subst hrun <;>
    refine ⟨rfl, ?_, _, _, rfl, ?_, ?_⟩ <;>
    cases h0 : failureOf (outcomes 0) <;> cases h1 : failureOf (outcomes 1) <;>
    simp [h0, h1, handleRequestStart, initialApiState]

/-- Witness of C20: the overlapping schedule in which call 0 fails and settles
first and call 1 succeeds and settles last; `error` ends as the message of
call 0. -/
theorem error_after_two_calls_settle_witness :
    Executor.initial.run sampleOutcomes [.start 0, .start 1, .settle 0, .settle 1] =
      some sampleBothSettled ∧
    sampleBothSettled.api.loading = false ∧
    sampleBothSettled.api.error = (failureOf (sampleOutcomes 0)).map errorMessage := by
  obtain ⟨-, h2, last, other, hs, -, hok⟩ :=
    error_after_two_calls_settle sampleOutcomes [.start 0, .start 1, .settle 0, .settle 1]
      sampleBothSettled (List.Perm.refl _) (by decide)
  have hs2 : [1, 0] = [last, other] := hs
  simp only [List.cons.injEq, and_true] at hs2
  obtain ⟨rfl, rfl⟩ := hs2
  exact ⟨by decide, h2, hok (by decide)⟩

/-! ## Request executor: bodies and requests on the wire -/

/-- Counterexample to C21: `deleteProduct 1` answered with a success status and
an empty body; the call raises the parser's error, which is stored in `error`. -/
theorem deleteProduct_raises_on_empty_body :
    emptyBodyResponse.ok = true ∧
    ((Operation.deleteProduct (.num 1)).run (constHost (.resolved emptyBodyResponse))
        initialApiState).result = .error (.error "Unexpected end of JSON input") ∧
    ((Operation.deleteProduct (.num 1)).run (constHost (.resolved emptyBodyResponse))
        initialApiState).settled.error = some "Unexpected end of JSON input" ∧
    ((Operation.deleteProduct (.num 1)).run (constHost (.resolved emptyBodyResponse))
        initialApiState).settled.error ≠ none :=
  ⟨rfl, rfl, rfl, by decide⟩

/-- C21, amended: for every response to `deleteProduct` with a success status,
`loading` is false after the call; when the body parses as JSON the call
completes without raising, returns the parsed body and leaves `error` null;
when the body does not parse, the call raises the parser's failure and `error`
is its message. -/
theorem deleteProduct_on_success_status {Body : Type} (host : Host Body) (s : ApiState)
    (id : Identifier) (response : Response Body)
    (hfetch : (Operation.deleteProduct id).fetched host = .resolved response)
    (hok : response.ok = true) :
    ((Operation.deleteProduct id).run host s).settled.loading = false ∧
    (∀ body : Body, response.json = .ok body →
      ((Operation.deleteProduct id).run host s).result = .ok body ∧
      ((Operation.deleteProduct id).run host s).settled.error = none) ∧
    (∀ err : Thrown, response.json = .error err →
      ((Operation.deleteProduct id).run host s).result = .error err ∧
      ((Operation.deleteProduct id).run host s).settled.error = some (errorMessage err)) := by
  have hs := Operation.run_settled host s (Operation.deleteProduct id)
  have ht : tryBlock ((Operation.deleteProduct id).fetched host) = response.json := by
    rw [hfetch]
    simp [tryBlock, hok]
  rw [Prod.ext_iff] at hs
  obtain ⟨h1, h2⟩ := hs
  simp only at h1 h2
  refine ⟨?_, ?_, ?_⟩
  · rw [h1, handleRequestSettle_loading]
  · intro body hb
    rw [h1, h2]
    simp [handleRequestSettle, ht, hb, handleRequestStart]
  · intro err he
    rw [h1, h2]
    simp [handleRequestSettle, ht, he]

/-- Witness of C21: `deleteProduct 1` answered 200 with the body 0, and
answered 204 with an empty body. -/
theorem deleteProduct_on_success_status_witness :
    ((Operation.deleteProduct (.num 1)).run
        (constHost (.resolved { ok := true, status := 200, json := .ok 0 }) : Host Nat)
        initialApiState).settled.loading = false ∧
    ((Operation.deleteProduct (.num 1)).run
        (constHost (.resolved { ok := true, status := 200, json := .ok 0 }) : Host Nat)
        initialApiState).settled.error = none ∧
    ((Operation.deleteProduct (.num 1)).run (constHost (.resolved emptyBodyResponse))
        initialApiState).settled.error =
      some (errorMessage (.error "Unexpected end of JSON input")) :=
  ⟨(deleteProduct_on_success_status
      (constHost (.resolved { ok := true, status := 200, json := .ok 0 }) : Host Nat)
      initialApiState (.num 1) { ok := true, status := 200, json := .ok 0 } rfl rfl).1,
   ((deleteProduct_on_success_status
      (constHost (.resolved { ok := true, status := 200, json := .ok 0 }) : Host Nat)
      initialApiState (.num 1) { ok := true, status := 200, json := .ok 0 } rfl rfl).2.1 0 rfl).2,
   ((deleteProduct_on_success_status (constHost (.resolved emptyBodyResponse))
      initialApiState (.num 1) emptyBodyResponse rfl rfl).2.2 _ rfl).2⟩

/-- C25: read operations on the wire. `getProducts`, `getProduct(id)` and
`getStoreInfo` each make exactly one call of `fetch`, to the base address
followed by `/products`, by `/products/` and the identifier as the template
literal renders it (a string identifier as it is), and by `/store_info`; the
options are the headers object holding only Content-Type: application/json,
with no method and no body; what each operation stores and returns is what
`handleRequest` makes of the response to that one call. -/
theorem read_operations_on_the_wire {Body : Type} (host : Host Body) (id : Identifier)
    (text : String) (s : ApiState) :
    Operation.getProducts.fetches host =
      [("http://localhost:3001/products",
        { headers := [("Content-Type", "application/json")], method := none, body := none })] ∧
    (Operation.getProduct id).fetches host =
      [("http://localhost:3001/products/" ++ templateString host.numberToString id,
        { headers := [("Content-Type", "application/json")], method := none, body := none })] ∧
    (Operation.getProduct (.str text)).fetches host =
      [("http://localhost:3001/products/" ++ text,
        { headers := [("Content-Type", "application/json")], method := none, body := none })] ∧
    Operation.getStoreInfo.fetches host =
      [("http://localhost:3001/store_info",
        { headers := [("Content-Type", "application/json")], method := none, body := none })] ∧
    ((Operation.getProducts.run host s).settled, (Operation.getProducts.run host s).result) =
      handleRequestSettle (handleRequestStart s)
        (host.fetch "http://localhost:3001/products"
          { headers := [("Content-Type", "application/json")], method := none,
            body := none }) ∧
    (((Operation.getProduct id).run host s).settled,
        ((Operation.getProduct id).run host s).result) =
      handleRequestSettle (handleRequestStart s)
        (host.fetch ("http://localhost:3001/products/" ++ templateString host.numberToString id)
          { headers := [("Content-Type", "application/json")], method := none,
            body := none }) ∧
    ((Operation.getStoreInfo.run host s).settled, (Operation.getStoreInfo.run host s).result) =
      handleRequestSettle (handleRequestStart s)
        (host.fetch "http://localhost:3001/store_info"
          { headers := [("Content-Type", "application/json")], method := none,
            body := none }) := by
  refine ⟨rfl, ?_, ?_, rfl, ?_, ?_, ?_⟩
  · simp only [Operation.fetches, handleRequestFetches, Operation.url, Operation.options,
      base_products_append]
    rfl
  · simp only [Operation.fetches, handleRequestFetches, Operation.url, Operation.options,
      base_products_append, templateString]
    rfl
  · rw [Operation.run_settled]
    rfl
  · rw [Operation.run_settled]
    simp only [Operation.fetched, Operation.url, Operation.options, base_products_append]
    rfl
  · rw [Operation.run_settled]
    rfl

/-- C26: mutating operations on the wire. `createProduct(p)` makes one call of
`fetch`, POST to `/products` with the serialization of `p` as body;
`updateProduct(id, p)` one call, PATCH to `/products/` and the identifier as
the template literal renders it, with the serialization of `p` as body;
`deleteProduct(id)` one call, DELETE to the same address with no body; the
headers of each are Content-Type: application/json and nothing else; what each
operation stores and returns is what `handleRequest` makes of the response to
that one call. -/
theorem mutating_operations_on_the_wire {Body : Type} (host : Host Body) (p : JsObject)
    (id : Identifier) (s : ApiState) :
    (Operation.createProduct p).fetches host =
      [("http://localhost:3001/products",
        { headers := [("Content-Type", "application/json")], method := some "POST",
          body := some (host.stringify p) })] ∧
    (Operation.updateProduct id p).fetches host =
      [("http://localhost:3001/products/" ++ templateString host.numberToString id,
        { headers := [("Content-Type", "application/json")], method := some "PATCH",
          body := some (host.stringify p) })] ∧
    (Operation.deleteProduct id).fetches host =
      [("http://localhost:3001/products/" ++ templateString host.numberToString id,
        { headers := [("Content-Type", "application/json")], method := some "DELETE",
          body := none })] ∧
    (((Operation.createProduct p).run host s).settled,
        ((Operation.createProduct p).run host s).result) =
      handleRequestSettle (handleRequestStart s)
        (host.fetch "http://localhost:3001/products"
          { headers := [("Content-Type", "application/json")], method := some "POST",
            body := some (host.stringify p) }) ∧
    (((Operation.updateProduct id p).run host s).settled,
        ((Operation.updateProduct id p).run host s).result) =
      handleRequestSettle (handleRequestStart s)
        (host.fetch ("http://localhost:3001/products/" ++ templateString host.numberToString id)
          { headers := [("Content-Type", "application/json")], method := some "PATCH",
            body := some (host.stringify p) }) ∧
    (((Operation.deleteProduct id).run host s).settled,
        ((Operation.deleteProduct id).run host s).result) =
      handleRequestSettle (handleRequestStart s)
        (host.fetch ("http://localhost:3001/products/" ++ templateString host.numberToString id)
          { headers := [("Content-Type", "application/json")], method := some "DELETE",
            body := none }) := by
  refine ⟨rfl, ?_, ?_, ?_, ?_, ?_⟩
  · simp only [Operation.fetches, handleRequestFetches, Operation.url, Operation.options,
      base_products_append]
    rfl
  · simp only [Operation.fetches, handleRequestFetches, Operation.url, Operation.options,
      base_products_append]
    rfl
  · rw [Operation.run_settled]
    rfl
  · rw [Operation.run_settled]
    simp only [Operation.fetched, Operation.url, Operation.options, base_products_append]
    rfl
  · rw [Operation.run_settled]
    simp only [Operation.fetched, Operation.url, Operation.options, base_products_append]
    rfl

/-! ## Product creation: validation and submission -/

/-- C22: failed mutations leave prior state intact. When the delete call made
by `handleDelete` fails, the whole component state (snapshot and edit session
included) is as before and the only call issued is the remove, so no refresh;
when the create call made by `handleSubmit` fails, the form data and the
success message are as before and no navigation is scheduled. -/
theorem failed_mutation_keeps_state {β : Type} (st : ProductsState) (id : Nat) (err : Thrown)
    (listOutcome : Except Thrown (List Product)) (host : FormHost) (form : AddProductState) :
    (handleDelete st id true (.error err : Except Thrown β) listOutcome).1 = st ∧
    (handleDelete st id true (.error err : Except Thrown β) listOutcome).1.products =
      st.products ∧
    (handleDelete st id true (.error err : Except Thrown β) listOutcome).1.editingProduct =
      st.editingProduct ∧
    (handleDelete st id true (.error err : Except Thrown β) listOutcome).2 =
      [ApiCall.deleteProduct id] ∧
    ApiCall.getProducts ∉
      (handleDelete st id true (.error err : Except Thrown β) listOutcome).2 ∧
    (handleSubmit host form (.error err : Except Thrown β)).state.formData = form.formData ∧
    (handleSubmit host form (.error err : Except Thrown β)).state.successMessage =
      form.successMessage ∧
    (handleSubmit host form (.error err : Except Thrown β)).redirect = none := by
  refine ⟨rfl, rfl, rfl, rfl, ?_, ?_, ?_, ?_⟩
  · simp [handleDelete]
  all_goals
    unfold handleSubmit
    cases hv : (validateForm host form.formData).2 <;> simp [hv]

/-- C23: refresh after create. For every form that passes validation, after
the create call succeeds the creating flow sets the success message, resets the
form, has issued the create call with the form data and schedules a navigation
to `/products`; once that navigation has fired the route table mounts the
product list, whose initial load issues one list call; when that call fulfils
its result is the new snapshot, so the snapshot holds a record with the
identifier the store assigned whenever the store lists the created record. -/
theorem create_flow_refreshes_snapshot {β : Type} (host : FormHost)
    (form : AddProductState) (v : β) (listOutcome : Except Thrown (List Product))
    (hvalid : (validateForm host form.formData).2 = true) :
    (handleSubmit host form (.ok v : Except Thrown β)).calls =
      [AddProductCall.createProduct form.formData] ∧
    (handleSubmit host form (.ok v : Except Thrown β)).state.successMessage =
      "Product created successfully!" ∧
    (handleSubmit host form (.ok v : Except Thrown β)).state.formData = emptyFormData ∧
    (handleSubmit host form (.ok v : Except Thrown β)).redirect = some "/products" ∧
    route "/products" = some Page.products ∧
    afterRedirect (handleSubmit host form (.ok v : Except Thrown β)) listOutcome =
      some (mountProducts listOutcome) ∧
    (mountProducts listOutcome).2 = [ApiCall.getProducts] ∧
    (∀ L : List Product, listOutcome = .ok L →
      (mountProducts listOutcome).1.products = L ∧
      ∀ id : Nat, (∃ created ∈ L, created.id = id) →
        ∃ p ∈ (mountProducts listOutcome).1.products, p.id = id) := by
  have hs : handleSubmit host form (.ok v : Except Thrown β) =
      { state := { form with validationErrors := (validateForm host form.formData).1,
                             successMessage := "Product created successfully!",
                             formData := emptyFormData }
        calls := [AddProductCall.createProduct form.formData]
        redirect := some "/products" } := by
    simp [handleSubmit, hvalid]
  have hroute : route "/products" = some Page.products := by decide
  refine ⟨by rw [hs], by rw [hs], by rw [hs], by rw [hs], hroute, ?_, ?_, ?_⟩
  · rw [hs]
    simp only [afterRedirect, hroute]
  · cases listOutcome <;> rfl
  · rintro L rfl
    exact ⟨rfl, fun id h => h⟩

/-- Witness of C23: the sample form, created with id 3 and listed by the store. -/
theorem create_flow_refreshes_snapshot_witness :
    (handleSubmit sampleFormHost sampleFilledForm (.ok () : Except Thrown Unit)).calls =
      [AddProductCall.createProduct sampleValidForm] ∧
    afterRedirect (handleSubmit sampleFormHost sampleFilledForm (.ok () : Except Thrown Unit))
      (.ok [sampleFirst, sampleSecond, sampleCreated]) =
      some (mountProducts (.ok [sampleFirst, sampleSecond, sampleCreated])) ∧
    (mountProducts (.ok [sampleFirst, sampleSecond, sampleCreated])).2 =
      [ApiCall.getProducts] ∧
    (∃ p ∈ (mountProducts (.ok [sampleFirst, sampleSecond, sampleCreated])).1.products,
      p.id = 3) :=
  ⟨(create_flow_refreshes_snapshot sampleFormHost sampleFilledForm ()
      (.ok [sampleFirst, sampleSecond, sampleCreated]) (by decide)).1,
   (create_flow_refreshes_snapshot sampleFormHost sampleFilledForm ()
      (.ok [sampleFirst, sampleSecond, sampleCreated]) (by decide)).2.2.2.2.2.1,
   (create_flow_refreshes_snapshot sampleFormHost sampleFilledForm ()
      (.ok [sampleFirst, sampleSecond, sampleCreated]) (by decide)).2.2.2.2.2.2.1,
   ((create_flow_refreshes_snapshot sampleFormHost sampleFilledForm ()
      (.ok [sampleFirst, sampleSecond, sampleCreated]) (by decide)).2.2.2.2.2.2.2 _ rfl).2 3
      ⟨sampleCreated, by decide, rfl⟩⟩

/-- C29: submission is gated by validation. For every form and however the
create call would settle, `handleSubmit` issues the create call, with the form
data, if and only if `validateForm` returns true, and issues no other call;
when validation fails no call is issued, the form data and the success message
are unchanged and no navigation is scheduled. -/
theorem handleSubmit_gated_by_validation {β : Type} (host : FormHost) (form : AddProductState)
    (createOutcome : Except Thrown β) :
    (AddProductCall.createProduct form.formData ∈
        (handleSubmit host form createOutcome).calls ↔
      (validateForm host form.formData).2 = true) ∧
    ((validateForm host form.formData).2 = true →
      (handleSubmit host form createOutcome).calls =
        [AddProductCall.createProduct form.formData]) ∧
    ((validateForm host form.formData).2 = false →
      (handleSubmit host form createOutcome).calls = [] ∧
      (handleSubmit host form createOutcome).state.formData = form.formData ∧
      (handleSubmit host form createOutcome).state.successMessage = form.successMessage ∧
      (handleSubmit host form createOutcome).redirect = none) := by
  unfold handleSubmit
  cases hv : (validateForm host form.formData).2 <;> cases createOutcome <;> simp [hv]

/-- Witness of C29: the sample form is submitted, the empty form is not. -/
theorem handleSubmit_gated_by_validation_witness :
    (handleSubmit sampleFormHost sampleFilledForm (.ok () : Except Thrown Unit)).calls =
      [AddProductCall.createProduct sampleValidForm] ∧
    (handleSubmit sampleFormHost initialAddProductState (.ok () : Except Thrown Unit)).calls =
      [] :=
  ⟨(handleSubmit_gated_by_validation sampleFormHost sampleFilledForm (.ok ())).2.1 (by decide),
   ((handleSubmit_gated_by_validation sampleFormHost initialAddProductState
      (.ok ())).2.2 (by decide)).1⟩

/-- C24: creation-time validation. For every form data, the errors object of
`validateForm` holds, under each field, its message exactly when the rule of
the field fails and nothing otherwise (for the image: the required message when
it is blank after trim, else the format message when it does not parse as a
URL), it has no other key, and the function returns true iff no rule fails;
for the initial empty form, the errors are exactly those of name, description,
category, price and image, with none for stock. -/
theorem validateForm_rules (host : FormHost) (fd : FormData) :
    ((validateForm host fd).1.lookup "name" =
      if host.trim fd.name = "" then some "Product name is required" else none) ∧
    ((validateForm host fd).1.lookup "description" =
      if host.trim fd.description = "" then some "Product description is required"
      else none) ∧
    ((validateForm host fd).1.lookup "category" =
      if fd.category = "" then some "Category is required" else none) ∧
    ((validateForm host fd).1.lookup "price" =
      if fd.price ≤ 0 then some "Price must be greater than 0" else none) ∧
    ((validateForm host fd).1.lookup "stock" =
      if fd.stock < 0 then some "Stock cannot be negative" else none) ∧
    ((validateForm host fd).1.lookup "image" =
      if host.trim fd.image = "" then some "Image URL is required"
      else if host.parsesAsUrl fd.image = true then none
      else some "Please enter a valid image URL") ∧
    (∀ k ∈ (validateForm host fd).1.map Prod.fst,
      k ∈ ["name", "description", "category", "price", "stock", "image"]) ∧
    ((validateForm host fd).2 = true ↔
      ¬ host.trim fd.name = "" ∧ ¬ host.trim fd.description = "" ∧ ¬ fd.category = "" ∧
      ¬ fd.price ≤ 0 ∧ ¬ fd.stock < 0 ∧ ¬ host.trim fd.image = "" ∧
      host.parsesAsUrl fd.image = true) ∧
    (host.trim "" = "" →
      (validateForm host emptyFormData).1 =
        [("name", "Product name is required"),
         ("description", "Product description is required"),
         ("category", "Category is required"),
         ("price", "Price must be greater than 0"),
         ("image", "Image URL is required")] ∧
      (validateForm host emptyFormData).1.lookup "stock" = none) := by
  rw [validateForm_eq]
  refine ⟨?_, ?_, ?_, ?_, ?_, ?_, ?_, ?_, ?_⟩
  case refine_9 =>
    intro h
    rw [validateForm_eq]
    simp only [emptyFormData, h]
    cases host.parsesAsUrl "" <;> decide
  all_goals
    by_cases h1 : host.trim fd.name = "" <;>
    by_cases h2 : host.trim fd.description = "" <;>
    by_cases h3 : fd.category = "" <;>
    by_cases h4 : fd.price ≤ 0 <;>
    by_cases h5 : fd.stock < 0 <;>
    by_cases h6 : host.trim fd.image = "" <;>
    cases h7 : host.parsesAsUrl fd.image <;>
    simp only [h1, h2, h3, h4, h5, h6, decide_True, decide_False, if_true, if_false,
      not_true_eq_false, not_false_eq_true, and_true, and_false, false_and, true_and,
      Bool.false_eq_true, iff_false, iff_true, Bool.not_eq_true] <;>
    decide

/-- Witness of C24: the empty form under the sample built-ins. -/
theorem validateForm_rules_witness :
    (validateForm sampleFormHost emptyFormData).1 =
      [("name", "Product name is required"),
       ("description", "Product description is required"),
       ("category", "Category is required"),
       ("price", "Price must be greater than 0"),
       ("image", "Image URL is required")] ∧
    (validateForm sampleFormHost emptyFormData).1.lookup "stock" = none :=
  (validateForm_rules sampleFormHost emptyFormData).2.2.2.2.2.2.2.2 (by decide)

/-! ## Dashboard and the initial view -/

/-- Counterexample to C27: the `store_info` call answers with a one-element
list and the products call of the same load fails; the dashboard's store info
stays null. -/
theorem storeInfo_null_when_products_call_fails :
    (fetchData initialDashboardState (.error (.error "Network error"))
        (.ok [sampleStoreInfo])).storeInfo = none ∧
    (fetchData initialDashboardState (.error (.error "Network error"))
        (.ok [sampleStoreInfo])).storeInfo ≠ [sampleStoreInfo].head? := by
  decide

/-- C27, amended: when both calls of the dashboard's load succeed, the store
info is the first element of the `store_info` response list when the list is
non-empty and null when it is empty; when either call fails the state, store
info included, is left as it was. -/
theorem storeInfo_first_element_when_load_succeeds (st : DashboardState)
    (productsData : List Product) (first : StoreInfo) (rest : List StoreInfo) (err : Thrown)
    (productsOutcome : Except Thrown (List Product))
    (storeOutcome : Except Thrown (List StoreInfo)) :
    (fetchData st (.ok productsData) (.ok (first :: rest))).storeInfo = some first ∧
    (fetchData st (.ok productsData) (.ok [])).storeInfo = none ∧
    (fetchData st (.ok productsData) (.ok (first :: rest))).products = productsData ∧
    fetchData st (.error err) storeOutcome = st ∧
    fetchData st productsOutcome (.error err) = st := by
  refine ⟨rfl, rfl, rfl, ?_, ?_⟩
  · cases storeOutcome <;> rfl
  · cases productsOutcome <;> rfl

/-- C28: under the initial criteria the view is the snapshot restricted to the
records priced from 0 to 1000 inclusive; it is the whole snapshot exactly when
every price lies in that range; a record priced 1500 is absent from the initial
view of a snapshot that holds it. -/
theorem initial_view_is_price_restricted (toLowerCase : String → String)
    (products : List Product) :
    applyFilters toLowerCase products initialFilters =
      products.filter (fun p => decide (0 ≤ p.price ∧ p.price ≤ 1000)) ∧
    (applyFilters toLowerCase products initialFilters = products ↔
      ∀ p ∈ products, 0 ≤ p.price ∧ p.price ≤ 1000) ∧
    samplePricey ∈ [sampleFirst, samplePricey] ∧
    samplePricey ∉ applyFilters toLowerCase [sampleFirst, samplePricey] initialFilters := by
  have h : applyFilters toLowerCase products initialFilters =
      products.filter (fun p => decide (0 ≤ p.price ∧ p.price ≤ 1000)) := by
    rw [applyFilters_eq_filter]
    congr 1
    funext p
    simp [SatisfiesClauses, initialFilters]
  refine ⟨h, ?_, by decide, ?_⟩
  · rw [h, List.filter_eq_self]
    simp
  · rw [mem_applyFilters_iff]
    rintro ⟨-, -, -, ⟨-, h2⟩, -⟩
    revert h2
    decide

/-- C30: dashboard statistics. The featured list is the first three featured
products in snapshot order, so the Featured Products card shows the minimum of
3 and the number of featured products, which differs from that number for a
snapshot with four featured products; the Low Stock Items card shows the number
of products with stock below 10 and the Total Products card the snapshot
length. -/
theorem dashboard_statistics (products : List Product) :
    featuredProducts products = (products.filter (fun p => p.featured)).take 3 ∧
    (featuredProducts products).Sublist products ∧
    (statsCards products).2.1 = min 3 (products.countP (fun p => p.featured)) ∧
    (statsCards products).2.2 = products.countP (fun p => decide (p.stock < 10)) ∧
    (statsCards products).1 = products.length ∧
    (statsCards [samplePricey, sampleSecond, samplePricey, samplePricey]).2.1 = 3 ∧
    [samplePricey, sampleSecond, samplePricey, samplePricey].countP (fun p => p.featured) =
      4 := by
  refine ⟨rfl, ?_, ?_, ?_, rfl, by decide, by decide⟩
  · exact (List.take_sublist _ _).trans (List.filter_sublist _)
  · simp only [statsCards, featuredProducts, List.length_take, List.countP_eq_length_filter]
  · simp only [statsCards, lowStockProducts, List.countP_eq_length_filter]

end ProjectShowcase
